import Mathlib

/-!
Verification of the clang AST exporter (`src/libtooling/ASTExporter.h`).

This file gives a shallow embedding, in Lean 4, of the parts of the
`ASTLib::ASTExporter` template that the specification's claims are about:

* the incremental source-location compressor `dumpSourceLocation`
  (lines 429-465 of the source);
* the pointer-identity virtualization `writePointer` and its process-global
  table `pointerMap` / `pointerCounter` (lines 397-416);
* the name splitter `dumpName` (lines 521-549);
* the tuple-size resolver `TupleSizeBase` (`tupleSizeOfDeclKind`,
  `tupleSizeOfStmtClass`, lines 74-117) together with the per-kind
  `...TupleSize` definitions and the per-kind `Visit...` emission routines;
* the null-pointer sentinel substitution in `dumpDecl`, `dumpStmt`,
  `dumpType` and `dumpComment`;
* the member-listing filter in `VisitDeclContext` (lines 595-626) and the
  by-value / by-reference duality `dumpDecl` vs `dumpDeclRef`.

Machine integers are modelled as `Nat` (the only wrap-around-relevant
constant is the initializer `LastLocLine = ~0U`, kept literally as
`4294967295`).  The output stream produced through the `ATDWriter`
primitives is modelled as a tree of values (`JValue`), where every
aggregate records the size that was declared when it was opened.
-/

namespace ASTExporter

/-! ## Output values

A reified model of what the `ATDWriter` primitives produce.  Each
`ObjectScope`/`ArrayScope` carries the declared size passed at the call
site; `TupleScope` is opened either with a declared size
(`dumpDecl`, `dumpStmt`) or without one (`dumpType`, `dumpComment`),
hence `Option Nat`. -/

inductive JValue : Type where
  | str (s : String)
  | int (n : Int)
  | bool (b : Bool)
  | obj (declaredSize : Nat) (fields : List (String × JValue))
  | arr (declaredSize : Nat) (items : List JValue)
  | tup (declaredSize : Option Nat) (items : List JValue)
  | variant (tag : String) (body : JValue)
  | simpleVariant (tag : String)
  deriving Repr

/-! ## Location compressor (`dumpSourceLocation`, source lines 429-465)

A presumed location is either invalid (`none`) or a `(file, line, column)`
triple.  The encoder state is the pair of member fields
`LastLocFilename` / `LastLocLine`; the constructor (source line 169)
initializes them to `""` and `~0U`. -/

structure Loc : Type where
  file : String
  line : Nat
  col : Nat
  deriving DecidableEq, Repr

structure LocState : Type where
  lastFile : String
  lastLine : Nat
  deriving DecidableEq, Repr

/-- Initial location state, from the constructor's member initializers
`LastLocFilename("")` and `LastLocLine(~0U)` (source line 169). -/
def initLocState : LocState := ⟨"", 4294967295⟩

/-- The four record shapes `dumpSourceLocation` can emit:
the empty object, `{file; line; column}`, `{line; column}`, `{column}`. -/
inductive LocRecord : Type where
  | empty
  | fileLineCol (file : String) (line : Nat) (col : Nat)
  | lineCol (line : Nat) (col : Nat)
  | colOnly (col : Nat)
  deriving DecidableEq, Repr

/-- Shallow embedding of `dumpSourceLocation` (source lines 429-465).
On an invalid presumed location it emits the empty object and returns
early, leaving the state unchanged; otherwise it compares the location's
file and line with the stored `LastLocFilename`/`LastLocLine`, emits one
of the three non-empty shapes, and stores the location's file and line. -/
def dumpSourceLocation (st : LocState) (loc : Option Loc) :
    LocRecord × LocState :=
  match loc with
  | none => (LocRecord.empty, st)
  | some p =>
    if p.file ≠ st.lastFile then (.fileLineCol p.file p.line p.col, ⟨p.file, p.line⟩)
    else if p.line ≠ st.lastLine then (.lineCol p.line p.col, ⟨p.file, p.line⟩)
    else (.colOnly p.col, ⟨p.file, p.line⟩)

/-- The record-shape selector as the specification's §4.4 describes it
after amendment: the choice is keyed on the validity of the location
being encoded (not of the previous one) and on comparison with the last
emitted file and line. -/
def specShape (st : LocState) (loc : Option Loc) : LocRecord :=
  match loc with
  | none => .empty
  | some p =>
    if p.file ≠ st.lastFile then .fileLineCol p.file p.line p.col
    else if p.line ≠ st.lastLine then .lineCol p.line p.col
    else .colOnly p.col

/-- Encoding a sequence of locations in order, threading the state. -/
def encodeLocs (st : LocState) : List (Option Loc) → List LocRecord × LocState
  | [] => ([], st)
  | p :: ps =>
    ((dumpSourceLocation st p).1 :: (encodeLocs (dumpSourceLocation st p).2 ps).1,
     (encodeLocs (dumpSourceLocation st p).2 ps).2)

/-- The `(file, line)` carry-forward reconstruction rule: an empty record
decodes to an invalid position and leaves the carried state alone; a
record missing the file (resp. the file and the line) takes them from the
carried state; the carried state is updated to the decoded position's
file and line. -/
def decodeLoc (st : LocState) : LocRecord → Option Loc × LocState
  | .empty => (none, st)
  | .fileLineCol f l c => (some ⟨f, l, c⟩, ⟨f, l⟩)
  | .lineCol l c => (some ⟨st.lastFile, l, c⟩, ⟨st.lastFile, l⟩)
  | .colOnly c => (some ⟨st.lastFile, st.lastLine, c⟩, st)

/-- Replaying a compressed sequence under the carry-forward rule. -/
def decodeLocs (st : LocState) : List LocRecord → List (Option Loc) × LocState
  | [] => ([], st)
  | r :: rs =>
    ((decodeLoc st r).1 :: (decodeLocs (decodeLoc st r).2 rs).1,
     (decodeLocs (decodeLoc st r).2 rs).2)

/-! ## Pointer-identity virtualization (`writePointer`, source lines 397-416)

`pointerMap` and `pointerCounter` are namespace-scope globals, initialized
to the empty map and `0` when the process starts (source lines 397-398).
Because insertions assign `pointerMap[Ptr] = pointerCounter++`, the map
always sends the i-th distinct pointer ever seen to `i`; it is therefore
represented by the list of distinct pointers in first-seen order, the
token of a pointer being its index in that list. -/

abbrev Ptr : Type := Nat

/-- The process-global identity table: distinct pointers in first-seen
order (`pointerMap` maps the i-th entry to token `i`, and
`pointerCounter` is the length). -/
structure PtrState : Type where
  seen : List Ptr
  deriving DecidableEq, Repr

/-- The global initializers `pointerMap; pointerCounter = 0`
(source lines 397-398). -/
def initPtrState : PtrState := ⟨[]⟩

/-- Index of a pointer in the table, i.e. the integer `pointerMap[Ptr]`
holds for it (the i-th pointer ever inserted is mapped to `i`). -/
def lookupIdx (l : List Ptr) (p : Ptr) : Option Nat :=
  match l with
  | [] => none
  | a :: t => if a = p then some 0 else (lookupIdx t p).map (· + 1)

/-- Anonymized-mode branch of `writePointer` (source lines 408-415):
if the pointer is absent from the map it is inserted with the next
counter value; the emitted token is the mapped integer. -/
def writePointerAnon (st : PtrState) (p : Ptr) : Nat × PtrState :=
  match lookupIdx st.seen p with
  | some i => (i, st)
  | none => (st.seen.length, ⟨st.seen ++ [p]⟩)

/-- Tokens produced by a run of `writePointer` calls in anonymized mode. -/
def runTokensFrom (st : PtrState) : List Ptr → List Nat × PtrState
  | [] => ([], st)
  | p :: ps =>
    ((writePointerAnon st p).1 :: (runTokensFrom (writePointerAnon st p).2 ps).1,
     (runTokensFrom (writePointerAnon st p).2 ps).2)

/-- Tokens of a request sequence starting from the process-start state. -/
def runTokens (ps : List Ptr) : List Nat := (runTokensFrom initPtrState ps).1

/-- The pointers of a request sequence in order of first occurrence,
relative to a set already seen. -/
def firstSeenFrom (seen : List Ptr) : List Ptr → List Ptr
  | [] => []
  | p :: ps =>
    if p ∈ seen then firstSeenFrom seen ps
    else p :: firstSeenFrom (seen ++ [p]) ps

def firstSeen (ps : List Ptr) : List Ptr := firstSeenFrom [] ps

/-- The `ASTExporter::ASTExporter` constructor (source lines 161-177):
it resets the location state (`LastLocFilename(""), LastLocLine(~0U)`)
but does not touch the namespace-scope `pointerMap`/`pointerCounter`. -/
structure ExporterState : Type where
  ptrs : PtrState
  locSt : LocState
  deriving DecidableEq, Repr

def exporterCtor (g : PtrState) : ExporterState := ⟨g, initLocState⟩

/-- Several export invocations in one process: each run constructs a new
`ASTExporter` over the surviving global table and then performs its
`writePointer` calls. -/
def runsTokens (g : PtrState) : List (List Ptr) → List (List Nat) × PtrState
  | [] => ([], g)
  | r :: rs =>
    ((runTokensFrom (exporterCtor g).ptrs r).1 ::
       (runsTokens (runTokensFrom (exporterCtor g).ptrs r).2 rs).1,
     (runsTokens (runTokensFrom (exporterCtor g).ptrs r).2 rs).2)

/-! ## Name splitting (`dumpName`, source lines 521-549)

`dumpName` emits an object `{name; qual_name}` where `qual_name` is
obtained by splitting the qualified name on `"::"` with a find/substr
loop and then emitting the pieces with a downward index loop.  Strings
are modelled as `List Char` so that `find` and `substr` are explicit. -/

/-- Model of `qualName.find("::", pos)` relative to the suffix starting
at `pos`: the first index at which the two-character separator occurs. -/
def findColons : List Char → Option Nat
  | [] => none
  | c :: t =>
    if c = ':' ∧ t.head? = some ':' then some 0
    else (findColons t).map (· + 1)

/-- One step of the source's split loop: the piece before the first
separator is `substr(firstChar, lastChar - firstChar)` and the loop
resumes at `lastChar + token.length()`, i.e. on `drop (k + 2)`; when
`find` returns `npos` the remainder is pushed.  The loop consumes at
least two characters per iteration, so `l.length` steps of fuel always
suffice. -/
def splitQualFuel : Nat → List Char → List (List Char)
  | 0, l => [l]
  | fuel + 1, l =>
    match findColons l with
    | none => [l]
    | some k => l.take k :: splitQualFuel fuel (l.drop (k + 2))

def splitQual (l : List Char) : List (List Char) := splitQualFuel l.length l

/-- The source's emission loop `for (int i = splitted.size() - 1; i >= 0;
i--) emitString(splitted[i])`. -/
def emitDownLoop (splitted : List (List Char)) : List (List Char) :=
  (List.range splitted.length).reverse.map (fun i => splitted.getD i [])

/-- Shallow embedding of `dumpName` (source lines 521-549): an object of
declared size 2 with a `name` field and a `qual_name` array whose
declared size is `splitted.size()` and whose elements are emitted by the
downward loop. -/
def dumpName (name : String) (qualName : List Char) : JValue :=
  .obj 2
    [("name", .str name),
     ("qual_name",
      .arr (splitQual qualName).length
        ((emitDownLoop (splitQual qualName)).map (fun c => .str (String.mk c))))]

/-- Joining components back with the separator; used to state that
`splitQual` really computes the `"::"`-separated components. -/
def joinColons : List (List Char) → List Char
  | [] => []
  | [c] => c
  | c :: cs => c ++ ':' :: ':' :: joinColons cs

/-! ## Kind-arity resolver: declaration family

The declaration kinds the exporter handles.  A kind has an explicit
`...TupleSize` method and `Visit...` routine in the source, or falls back
to its clang base class through the `TupleSizeBase` macros (source lines
78-94) and the `ConstDeclVisitor` default dispatch.  The abstract classes
`Decl`, `NamedDecl`, `TypeDecl`, `ValueDecl`, `DeclaratorDecl`,
`TypedefNameDecl`, `TagDecl`, `ObjCContainerDecl`, `ObjCImplDecl`,
`OverloadExpr` etc. appear because both fallback chains go through them.
`ParmVarDecl`, `CXXMethodDecl`, `CXXConstructorDecl` and `EmptyDecl` are
included as representative concrete kinds with no explicit handler: for
them both the size and the visit dispatch default to the base class. -/

inductive DeclKind : Type where
  | Decl | NamedDecl | TypeDecl | ValueDecl | DeclaratorDecl | TypedefNameDecl
  | TagDecl | ObjCContainerDecl | ObjCImplDecl
  | CapturedDecl | LinkageSpecDecl | NamespaceDecl | TranslationUnitDecl
  | TypedefDecl | EnumDecl | RecordDecl | EnumConstantDecl | IndirectFieldDecl
  | FunctionDecl | FieldDecl | VarDecl | ParmVarDecl | FileScopeAsmDecl
  | ImportDecl | UsingDirectiveDecl | NamespaceAliasDecl | CXXRecordDecl
  | CXXMethodDecl | CXXConstructorDecl
  | ObjCIvarDecl | ObjCMethodDecl | ObjCCategoryDecl | ObjCCategoryImplDecl
  | ObjCProtocolDecl | ObjCInterfaceDecl | ObjCImplementationDecl
  | ObjCCompatibleAliasDecl | ObjCPropertyDecl | ObjCPropertyImplDecl
  | BlockDecl | EmptyDecl
  deriving DecidableEq, Repr

/-- Whether the kind is a concrete clang declaration kind (i.e. a value
of `Decl::Kind`, handled by the `tupleSizeOfDeclKind` switch); the
abstract classes only anchor the two fallback chains. -/
def isConcreteDeclKind : DeclKind → Bool
  | .Decl | .NamedDecl | .TypeDecl | .ValueDecl | .DeclaratorDecl
  | .TypedefNameDecl | .TagDecl | .ObjCContainerDecl | .ObjCImplDecl => false
  | _ => true

/-- The result of `D->getDeclKindName()` for each kind: the kind name
without the `Decl` suffix (`dumpDecl` appends `"Decl"`, source line
1054). -/
def declKindName : DeclKind → String
  | .Decl => "Decl"
  | .NamedDecl => "Named"
  | .TypeDecl => "Type"
  | .ValueDecl => "Value"
  | .DeclaratorDecl => "Declarator"
  | .TypedefNameDecl => "TypedefName"
  | .TagDecl => "Tag"
  | .ObjCContainerDecl => "ObjCContainer"
  | .ObjCImplDecl => "ObjCImpl"
  | .CapturedDecl => "Captured"
  | .LinkageSpecDecl => "LinkageSpec"
  | .NamespaceDecl => "Namespace"
  | .TranslationUnitDecl => "TranslationUnit"
  | .TypedefDecl => "Typedef"
  | .EnumDecl => "Enum"
  | .RecordDecl => "Record"
  | .EnumConstantDecl => "EnumConstant"
  | .IndirectFieldDecl => "IndirectField"
  | .FunctionDecl => "Function"
  | .FieldDecl => "Field"
  | .VarDecl => "Var"
  | .ParmVarDecl => "ParmVar"
  | .FileScopeAsmDecl => "FileScopeAsm"
  | .ImportDecl => "Import"
  | .UsingDirectiveDecl => "UsingDirective"
  | .NamespaceAliasDecl => "NamespaceAlias"
  | .CXXRecordDecl => "CXXRecord"
  | .CXXMethodDecl => "CXXMethod"
  | .CXXConstructorDecl => "CXXConstructor"
  | .ObjCIvarDecl => "ObjCIvar"
  | .ObjCMethodDecl => "ObjCMethod"
  | .ObjCCategoryDecl => "ObjCCategory"
  | .ObjCCategoryImplDecl => "ObjCCategoryImpl"
  | .ObjCProtocolDecl => "ObjCProtocol"
  | .ObjCInterfaceDecl => "ObjCInterface"
  | .ObjCImplementationDecl => "ObjCImplementation"
  | .ObjCCompatibleAliasDecl => "ObjCCompatibleAlias"
  | .ObjCPropertyDecl => "ObjCProperty"
  | .ObjCPropertyImplDecl => "ObjCPropertyImpl"
  | .BlockDecl => "Block"
  | .EmptyDecl => "Empty"

/-! The `...TupleSize` functions, one Lean definition per source function
(line numbers refer to `ASTExporter.h`).  A definition with no `+ ...`
is a macro-generated fallback `DERIVED##DeclTupleSize() { return
BASE##TupleSize(); }` (source lines 78-83), where `BASE` is the kind's
clang base class from `DeclNodes.inc`. -/

def DeclTupleSize : Nat := 1                                      -- line 1062
def DeclContextTupleSize : Nat := 2                               -- line 588
def NamedDeclTupleSize : Nat := DeclTupleSize + 1                 -- line 1248
def TypeDeclTupleSize : Nat := NamedDeclTupleSize + 1 + 1         -- line 1205
def ValueDeclTupleSize : Nat := NamedDeclTupleSize + 1            -- line 1219
def DeclaratorDeclTupleSize : Nat := ValueDeclTupleSize           -- macro default
def TypedefNameDeclTupleSize : Nat := TypeDeclTupleSize           -- macro default
def TagDeclTupleSize : Nat := TypeDeclTupleSize + DeclContextTupleSize      -- line 1193
def ObjCContainerDeclTupleSize : Nat := NamedDeclTupleSize + DeclContextTupleSize  -- line 1181
def ObjCImplDeclTupleSize : Nat := ObjCContainerDeclTupleSize     -- macro default
def CapturedDeclTupleSize : Nat := DeclTupleSize + DeclContextTupleSize     -- line 1131
def LinkageSpecDeclTupleSize : Nat := DeclTupleSize + DeclContextTupleSize  -- line 1143
def NamespaceDeclTupleSize : Nat := NamedDeclTupleSize + DeclContextTupleSize + 1  -- line 1155
def TranslationUnitDeclTupleSize : Nat := DeclTupleSize + DeclContextTupleSize + 1 -- line 1232
def TypedefDeclTupleSize : Nat := TypedefNameDeclTupleSize + 1    -- line 1260
def EnumDeclTupleSize : Nat := TagDeclTupleSize + 1               -- line 1279
def RecordDeclTupleSize : Nat := TagDeclTupleSize + 1             -- line 1308
def EnumConstantDeclTupleSize : Nat := ValueDeclTupleSize + 1     -- line 1330
def IndirectFieldDeclTupleSize : Nat := ValueDeclTupleSize + 1    -- line 1352
def FunctionDeclTupleSize : Nat := DeclaratorDeclTupleSize + 1    -- line 1367
def FieldDeclTupleSize : Nat := DeclaratorDeclTupleSize + 1       -- line 1477
def VarDeclTupleSize : Nat := DeclaratorDeclTupleSize + 1         -- line 1513
def ParmVarDeclTupleSize : Nat := VarDeclTupleSize                -- macro default
def FileScopeAsmDeclTupleSize : Nat := DeclTupleSize + 1          -- line 1559
def ImportDeclTupleSize : Nat := DeclTupleSize + 1                -- line 1571
def UsingDirectiveDeclTupleSize : Nat := NamedDeclTupleSize + 1   -- line 1587
def NamespaceAliasDeclTupleSize : Nat := NamedDeclTupleSize + 1   -- line 1618
def CXXRecordDeclTupleSize : Nat := RecordDeclTupleSize + 1       -- line 1644
def CXXMethodDeclTupleSize : Nat := FunctionDeclTupleSize         -- macro default
def CXXConstructorDeclTupleSize : Nat := CXXMethodDeclTupleSize   -- macro default
def ObjCIvarDeclTupleSize : Nat := FieldDeclTupleSize + 1         -- line 1927
def ObjCMethodDeclTupleSize : Nat := NamedDeclTupleSize + 1       -- line 1971
def ObjCCategoryDeclTupleSize : Nat := ObjCContainerDeclTupleSize + 1       -- line 2016
def ObjCCategoryImplDeclTupleSize : Nat := ObjCImplDeclTupleSize + 1        -- line 2056
def ObjCProtocolDeclTupleSize : Nat := ObjCContainerDeclTupleSize + 1       -- line 2084
def ObjCInterfaceDeclTupleSize : Nat := ObjCContainerDeclTupleSize + 1      -- line 2112
def ObjCImplementationDeclTupleSize : Nat := ObjCImplDeclTupleSize + 1      -- line 2152
def ObjCCompatibleAliasDeclTupleSize : Nat := NamedDeclTupleSize + 1        -- line 2192
def ObjCPropertyDeclTupleSize : Nat := NamedDeclTupleSize + 1     -- line 2214
def ObjCPropertyImplDeclTupleSize : Nat := DeclTupleSize + 1      -- line 2314
def BlockDeclTupleSize : Nat := DeclTupleSize + DeclContextTupleSize + 1    -- line 2349
def EmptyDeclTupleSize : Nat := DeclTupleSize                     -- macro default

/-- The switch `tupleSizeOfDeclKind` (source lines 85-94): dispatch on
the concrete kind to that kind's `...TupleSize` method.  For the
abstract classes we return their own `...TupleSize` value (the switch is
never invoked on them; clang's `Decl::getKind` is always concrete). -/
def tupleSizeOfDeclKind : DeclKind → Nat
  | .Decl => DeclTupleSize
  | .NamedDecl => NamedDeclTupleSize
  | .TypeDecl => TypeDeclTupleSize
  | .ValueDecl => ValueDeclTupleSize
  | .DeclaratorDecl => DeclaratorDeclTupleSize
  | .TypedefNameDecl => TypedefNameDeclTupleSize
  | .TagDecl => TagDeclTupleSize
  | .ObjCContainerDecl => ObjCContainerDeclTupleSize
  | .ObjCImplDecl => ObjCImplDeclTupleSize
  | .CapturedDecl => CapturedDeclTupleSize
  | .LinkageSpecDecl => LinkageSpecDeclTupleSize
  | .NamespaceDecl => NamespaceDeclTupleSize
  | .TranslationUnitDecl => TranslationUnitDeclTupleSize
  | .TypedefDecl => TypedefDeclTupleSize
  | .EnumDecl => EnumDeclTupleSize
  | .RecordDecl => RecordDeclTupleSize
  | .EnumConstantDecl => EnumConstantDeclTupleSize
  | .IndirectFieldDecl => IndirectFieldDeclTupleSize
  | .FunctionDecl => FunctionDeclTupleSize
  | .FieldDecl => FieldDeclTupleSize
  | .VarDecl => VarDeclTupleSize
  | .ParmVarDecl => ParmVarDeclTupleSize
  | .FileScopeAsmDecl => FileScopeAsmDeclTupleSize
  | .ImportDecl => ImportDeclTupleSize
  | .UsingDirectiveDecl => UsingDirectiveDeclTupleSize
  | .NamespaceAliasDecl => NamespaceAliasDeclTupleSize
  | .CXXRecordDecl => CXXRecordDeclTupleSize
  | .CXXMethodDecl => CXXMethodDeclTupleSize
  | .CXXConstructorDecl => CXXConstructorDeclTupleSize
  | .ObjCIvarDecl => ObjCIvarDeclTupleSize
  | .ObjCMethodDecl => ObjCMethodDeclTupleSize
  | .ObjCCategoryDecl => ObjCCategoryDeclTupleSize
  | .ObjCCategoryImplDecl => ObjCCategoryImplDeclTupleSize
  | .ObjCProtocolDecl => ObjCProtocolDeclTupleSize
  | .ObjCInterfaceDecl => ObjCInterfaceDeclTupleSize
  | .ObjCImplementationDecl => ObjCImplementationDeclTupleSize
  | .ObjCCompatibleAliasDecl => ObjCCompatibleAliasDeclTupleSize
  | .ObjCPropertyDecl => ObjCPropertyDeclTupleSize
  | .ObjCPropertyImplDecl => ObjCPropertyImplDeclTupleSize
  | .BlockDecl => BlockDeclTupleSize
  | .EmptyDecl => EmptyDeclTupleSize

/-! ## Visitor emission: declaration family

Each `Visit...` routine first invokes one other visit routine (its
explicit first call, or for kinds without an explicit routine the
`ConstDeclVisitor` fallback to the clang base class) and then emits its
own fixed list of tuple-level values.  `declOwnTrace` records those own
emissions, labeled by the ATD component they correspond to in the
source's `\atd` annotations; calls to `VisitDeclContext` (which emits
the member array and the `decl_context_info` object) count among the
caller's own emissions, matching how the `...TupleSize` functions add
`DeclContextTupleSize`. -/

def declVisitParent : DeclKind → Option DeclKind
  | .Decl => none
  | .NamedDecl => some .Decl                       -- line 1255
  | .TypeDecl => some .NamedDecl                   -- line 1212
  | .ValueDecl => some .NamedDecl                  -- line 1226
  | .DeclaratorDecl => some .ValueDecl             -- visitor fallback
  | .TypedefNameDecl => some .TypeDecl             -- visitor fallback
  | .TagDecl => some .TypeDecl                     -- line 1200
  | .ObjCContainerDecl => some .NamedDecl          -- line 1188
  | .ObjCImplDecl => some .ObjCContainerDecl       -- visitor fallback
  | .CapturedDecl => some .Decl                    -- line 1138
  | .LinkageSpecDecl => some .Decl                 -- line 1150
  | .NamespaceDecl => some .NamedDecl              -- line 1166
  | .TranslationUnitDecl => some .Decl             -- line 1239
  | .TypedefDecl => some .TypedefNameDecl          -- line 1270
  | .EnumDecl => some .TagDecl                     -- line 1291
  | .RecordDecl => some .TagDecl                   -- line 1319
  | .EnumConstantDecl => some .ValueDecl           -- line 1340
  | .IndirectFieldDecl => some .ValueDecl          -- line 1359
  | .FunctionDecl => some .DeclaratorDecl          -- line 1386
  | .FieldDecl => some .DeclaratorDecl             -- line 1490
  | .VarDecl => some .DeclaratorDecl               -- line 1529
  | .ParmVarDecl => some .VarDecl                  -- visitor fallback
  | .FileScopeAsmDecl => some .Decl                -- line 1566
  | .ImportDecl => some .Decl                      -- line 1578
  | .UsingDirectiveDecl => some .NamedDecl         -- line 1600
  | .NamespaceAliasDecl => some .NamedDecl         -- line 1631
  | .CXXRecordDecl => some .RecordDecl             -- line 1656
  | .CXXMethodDecl => some .FunctionDecl           -- visitor fallback
  | .CXXConstructorDecl => some .CXXMethodDecl     -- visitor fallback
  | .ObjCIvarDecl => some .FieldDecl               -- line 1939
  | .ObjCMethodDecl => some .NamedDecl             -- line 1985
  | .ObjCCategoryDecl => some .ObjCContainerDecl   -- line 2028
  | .ObjCCategoryImplDecl => some .ObjCImplDecl    -- line 2067
  | .ObjCProtocolDecl => some .ObjCContainerDecl   -- line 2094
  | .ObjCInterfaceDecl => some .ObjCContainerDecl  -- line 2124
  | .ObjCImplementationDecl => some .ObjCImplDecl  -- line 2164
  | .ObjCCompatibleAliasDecl => some .NamedDecl    -- line 2202
  | .ObjCPropertyDecl => some .NamedDecl           -- line 2242
  | .ObjCPropertyImplDecl => some .Decl            -- line 2327
  | .BlockDecl => some .Decl                       -- line 2370
  | .EmptyDecl => some .Decl                       -- visitor fallback

def declOwnTrace : DeclKind → List String
  | .Decl => ["decl_info"]                              -- lines 1080-1128: one object
  | .NamedDecl => ["named_decl_info"]                   -- line 1256: dumpName
  | .TypeDecl => ["opt_type", "type_ptr"]               -- lines 1214-1215
  | .ValueDecl => ["qual_type"]                         -- line 1227
  | .DeclaratorDecl => []
  | .TypedefNameDecl => []
  | .TagDecl => ["decl list", "decl_context_info"]      -- line 1201: VisitDeclContext
  | .ObjCContainerDecl => ["decl list", "decl_context_info"]  -- line 1189
  | .ObjCImplDecl => []
  | .CapturedDecl => ["decl list", "decl_context_info"]       -- line 1139
  | .LinkageSpecDecl => ["decl list", "decl_context_info"]    -- line 1151
  | .NamespaceDecl => ["decl list", "decl_context_info", "namespace_decl_info"]  -- lines 1167-1177
  | .TranslationUnitDecl => ["decl list", "decl_context_info", "c_type list"]    -- lines 1240-1244
  | .TypedefDecl => ["typedef_decl_info"]               -- lines 1272-1275
  | .EnumDecl => ["enum_decl_info"]                     -- lines 1293-1304
  | .RecordDecl => ["record_decl_info"]                 -- lines 1321-1326
  | .EnumConstantDecl => ["enum_constant_decl_info"]    -- lines 1342-1348
  | .IndirectFieldDecl => ["decl_ref list"]             -- lines 1360-1363
  | .FunctionDecl => ["function_decl_info"]             -- lines 1389-1473: one object
  | .FieldDecl => ["field_decl_info"]                   -- lines 1492-1509
  | .VarDecl => ["var_decl_info"]                       -- lines 1531-1555
  | .ParmVarDecl => []
  | .FileScopeAsmDecl => ["string"]                     -- line 1567
  | .ImportDecl => ["string"]                           -- line 1579
  | .UsingDirectiveDecl => ["using_directive_decl_info"]      -- lines 1602-1614
  | .NamespaceAliasDecl => ["namespace_alias_decl_info"]      -- lines 1632-1640
  | .CXXRecordDecl => ["cxx_record_decl_info"]          -- lines 1658-1697: one object in both branches
  | .CXXMethodDecl => []
  | .CXXConstructorDecl => []
  | .ObjCIvarDecl => ["obj_c_ivar_decl_info"]           -- lines 1941-1967
  | .ObjCMethodDecl => ["obj_c_method_decl_info"]       -- lines 1988-2012
  | .ObjCCategoryDecl => ["obj_c_category_decl_info"]   -- lines 2030-2052
  | .ObjCCategoryImplDecl => ["obj_c_category_impl_decl_info"]  -- lines 2069-2080
  | .ObjCProtocolDecl => ["obj_c_protocol_decl_info"]   -- lines 2096-2108
  | .ObjCInterfaceDecl => ["obj_c_interface_decl_info"] -- lines 2126-2148
  | .ObjCImplementationDecl => ["obj_c_implementation_decl_info"]  -- lines 2166-2188
  | .ObjCCompatibleAliasDecl => ["obj_c_compatible_alias_decl_info"]  -- lines 2204-2210
  | .ObjCPropertyDecl => ["obj_c_property_decl_info"]   -- lines 2244-2310
  | .ObjCPropertyImplDecl => ["obj_c_property_impl_decl_info"]  -- lines 2329-2345
  | .BlockDecl => ["decl list", "decl_context_info", "block_decl_info"]  -- lines 2371-2422
  | .EmptyDecl => []

/-- Depth bound of both fallback chains (the deepest chain,
`CXXConstructorDecl`, has seven links). -/
def chainFuel : Nat := 12

/-- The tuple-level emission trace of the visit dispatch for a kind: the
parent routine's trace followed by the kind's own emissions. -/
def declVisitTrace : Nat → DeclKind → List String
  | 0, _ => []
  | fuel + 1, k =>
    (match declVisitParent k with
     | none => []
     | some p => declVisitTrace fuel p) ++ declOwnTrace k

/-- The ancestor chain of a kind in root-to-leaf order. -/
def declChain : Nat → DeclKind → List DeclKind
  | 0, _ => []
  | fuel + 1, k =>
    (match declVisitParent k with
     | none => []
     | some p => declChain fuel p) ++ [k]

/-! ## Kind-arity resolver and visitor emission: statement family -/

inductive StmtKind : Type where
  | Stmt | Expr | CastExpr | ExplicitCastExpr | CXXNamedCastExpr | OverloadExpr
  | NullStmt | CompoundStmt | DeclStmt | AttributedStmt | LabelStmt | GotoStmt
  | CXXCatchStmt | ObjCAtCatchStmt
  | CallExpr | ImplicitCastExpr | CStyleCastExpr | CXXStaticCastExpr
  | DeclRefExpr | PredefinedExpr | CharacterLiteral | IntegerLiteral
  | FloatingLiteral | StringLiteral | UnaryOperator | UnaryExprOrTypeTraitExpr
  | MemberExpr | ExtVectorElementExpr | BinaryOperator | CompoundAssignOperator
  | AddrLabelExpr | BlockExpr | OpaqueValueExpr
  | CXXBoolLiteralExpr | CXXConstructExpr | CXXBindTemporaryExpr
  | MaterializeTemporaryExpr | ExprWithCleanups | UnresolvedLookupExpr
  | LambdaExpr | CXXNewExpr | CXXDeleteExpr
  | ObjCMessageExpr | ObjCBoxedExpr | ObjCEncodeExpr | ObjCSelectorExpr
  | ObjCProtocolExpr | ObjCPropertyRefExpr | ObjCSubscriptRefExpr
  | ObjCIvarRefExpr | ObjCBoolLiteralExpr
  deriving DecidableEq, Repr

/-- Whether the kind is a concrete statement class (a `Stmt::StmtClass`
value, handled by the `tupleSizeOfStmtClass` switch). -/
def isConcreteStmtKind : StmtKind → Bool
  | .Stmt | .Expr | .CastExpr | .ExplicitCastExpr | .CXXNamedCastExpr
  | .OverloadExpr => false
  | _ => true

/-- The result of `S->getStmtClassName()` (used unchanged as the variant
tag, source line 2450). -/
def stmtKindName : StmtKind → String
  | .Stmt => "Stmt"
  | .Expr => "Expr"
  | .CastExpr => "CastExpr"
  | .ExplicitCastExpr => "ExplicitCastExpr"
  | .CXXNamedCastExpr => "CXXNamedCastExpr"
  | .OverloadExpr => "OverloadExpr"
  | .NullStmt => "NullStmt"
  | .CompoundStmt => "CompoundStmt"
  | .DeclStmt => "DeclStmt"
  | .AttributedStmt => "AttributedStmt"
  | .LabelStmt => "LabelStmt"
  | .GotoStmt => "GotoStmt"
  | .CXXCatchStmt => "CXXCatchStmt"
  | .ObjCAtCatchStmt => "ObjCAtCatchStmt"
  | .CallExpr => "CallExpr"
  | .ImplicitCastExpr => "ImplicitCastExpr"
  | .CStyleCastExpr => "CStyleCastExpr"
  | .CXXStaticCastExpr => "CXXStaticCastExpr"
  | .DeclRefExpr => "DeclRefExpr"
  | .PredefinedExpr => "PredefinedExpr"
  | .CharacterLiteral => "CharacterLiteral"
  | .IntegerLiteral => "IntegerLiteral"
  | .FloatingLiteral => "FloatingLiteral"
  | .StringLiteral => "StringLiteral"
  | .UnaryOperator => "UnaryOperator"
  | .UnaryExprOrTypeTraitExpr => "UnaryExprOrTypeTraitExpr"
  | .MemberExpr => "MemberExpr"
  | .ExtVectorElementExpr => "ExtVectorElementExpr"
  | .BinaryOperator => "BinaryOperator"
  | .CompoundAssignOperator => "CompoundAssignOperator"
  | .AddrLabelExpr => "AddrLabelExpr"
  | .BlockExpr => "BlockExpr"
  | .OpaqueValueExpr => "OpaqueValueExpr"
  | .CXXBoolLiteralExpr => "CXXBoolLiteralExpr"
  | .CXXConstructExpr => "CXXConstructExpr"
  | .CXXBindTemporaryExpr => "CXXBindTemporaryExpr"
  | .MaterializeTemporaryExpr => "MaterializeTemporaryExpr"
  | .ExprWithCleanups => "ExprWithCleanups"
  | .UnresolvedLookupExpr => "UnresolvedLookupExpr"
  | .LambdaExpr => "LambdaExpr"
  | .CXXNewExpr => "CXXNewExpr"
  | .CXXDeleteExpr => "CXXDeleteExpr"
  | .ObjCMessageExpr => "ObjCMessageExpr"
  | .ObjCBoxedExpr => "ObjCBoxedExpr"
  | .ObjCEncodeExpr => "ObjCEncodeExpr"
  | .ObjCSelectorExpr => "ObjCSelectorExpr"
  | .ObjCProtocolExpr => "ObjCProtocolExpr"
  | .ObjCPropertyRefExpr => "ObjCPropertyRefExpr"
  | .ObjCSubscriptRefExpr => "ObjCSubscriptRefExpr"
  | .ObjCIvarRefExpr => "ObjCIvarRefExpr"
  | .ObjCBoolLiteralExpr => "ObjCBoolLiteralExpr"

/-! The statement `...TupleSize` methods, one definition per source
function; fallbacks are the macro-generated `CLASS##TupleSize() { return
PARENT##TupleSize(); }` (source lines 98-103) with `PARENT` taken from
`StmtNodes.inc`. -/

def StmtTupleSize : Nat := 2                                      -- line 2458
def DeclStmtTupleSize : Nat := StmtTupleSize + 1                  -- line 2486
def AttributedStmtTupleSize : Nat := StmtTupleSize + 1            -- line 2501
def LabelStmtTupleSize : Nat := StmtTupleSize + 1                 -- line 2516
def GotoStmtTupleSize : Nat := StmtTupleSize + 1                  -- line 2528
def CXXCatchStmtTupleSize : Nat := StmtTupleSize + 1              -- line 2548
def ObjCAtCatchStmtTupleSize : Nat := StmtTupleSize + 1           -- line 3529
def NullStmtTupleSize : Nat := StmtTupleSize                      -- macro default
def CompoundStmtTupleSize : Nat := StmtTupleSize                  -- macro default
def ExprTupleSize : Nat := StmtTupleSize + 1                      -- line 2575
def CallExprTupleSize : Nat := ExprTupleSize                      -- macro default
def CastExprTupleSize : Nat := ExprTupleSize + 1                  -- line 2655
def ImplicitCastExprTupleSize : Nat := CastExprTupleSize          -- macro default
def ExplicitCastExprTupleSize : Nat := CastExprTupleSize + 1      -- line 2738
def CStyleCastExprTupleSize : Nat := ExplicitCastExprTupleSize    -- macro default
def CXXNamedCastExprTupleSize : Nat := ExplicitCastExprTupleSize + 1  -- line 3246
def CXXStaticCastExprTupleSize : Nat := CXXNamedCastExprTupleSize -- macro default
def DeclRefExprTupleSize : Nat := ExprTupleSize + 1               -- line 2750
def PredefinedExprTupleSize : Nat := ExprTupleSize + 1            -- line 2862
def CharacterLiteralTupleSize : Nat := ExprTupleSize + 1          -- line 2891
def IntegerLiteralTupleSize : Nat := ExprTupleSize + 1            -- line 2903
def FloatingLiteralTupleSize : Nat := ExprTupleSize + 1           -- line 2928
def StringLiteralTupleSize : Nat := ExprTupleSize + 1             -- line 2942
def UnaryOperatorTupleSize : Nat := ExprTupleSize + 1             -- line 2954
def UnaryExprOrTypeTraitExprTupleSize : Nat := ExprTupleSize + 1  -- line 3005
def MemberExprTupleSize : Nat := ExprTupleSize + 1                -- line 3043
def ExtVectorElementExprTupleSize : Nat := ExprTupleSize + 1      -- line 3069
def BinaryOperatorTupleSize : Nat := ExprTupleSize + 1            -- line 3081
def CompoundAssignOperatorTupleSize : Nat := BinaryOperatorTupleSize + 1  -- line 3166
def AddrLabelExprTupleSize : Nat := ExprTupleSize + 1             -- line 3222
def BlockExprTupleSize : Nat := ExprTupleSize + DeclTupleSize     -- line 3186
def OpaqueValueExprTupleSize : Nat := ExprTupleSize + 1           -- line 3198
def CXXBoolLiteralExprTupleSize : Nat := ExprTupleSize + 1        -- line 3258
def CXXConstructExprTupleSize : Nat := ExprTupleSize + 1          -- line 3270
def CXXBindTemporaryExprTupleSize : Nat := ExprTupleSize + 1      -- line 3296
def MaterializeTemporaryExprTupleSize : Nat := ExprTupleSize + 1  -- line 3313
def ExprWithCleanupsTupleSize : Nat := ExprTupleSize + 1          -- line 3334
def OverloadExprTupleSize : Nat := ExprTupleSize + 1              -- line 2779
def UnresolvedLookupExprTupleSize : Nat := OverloadExprTupleSize + 1  -- line 2809
def LambdaExprTupleSize : Nat := ExprTupleSize + DeclTupleSize    -- line 3368
def CXXNewExprTupleSize : Nat := ExprTupleSize + 1                -- line 3380
def CXXDeleteExprTupleSize : Nat := ExprTupleSize + 1             -- line 3413
def ObjCMessageExprTupleSize : Nat := ExprTupleSize + 1           -- line 3435
def ObjCBoxedExprTupleSize : Nat := ExprTupleSize + 1             -- line 3517
def ObjCEncodeExprTupleSize : Nat := ExprTupleSize + 1            -- line 3550
def ObjCSelectorExprTupleSize : Nat := ExprTupleSize + 1          -- line 3562
def ObjCProtocolExprTupleSize : Nat := ExprTupleSize + 1          -- line 3574
def ObjCPropertyRefExprTupleSize : Nat := ExprTupleSize + 1       -- line 3586
def ObjCSubscriptRefExprTupleSize : Nat := ExprTupleSize + 1      -- line 3645
def ObjCIvarRefExprTupleSize : Nat := ExprTupleSize + 1           -- line 2837
def ObjCBoolLiteralExprTupleSize : Nat := ExprTupleSize + 1       -- line 3684

/-- The switch `tupleSizeOfStmtClass` (source lines 105-115), named
`tupleSizeOfStmtKind` here. -/
def tupleSizeOfStmtKind : StmtKind → Nat
  | .Stmt => StmtTupleSize
  | .Expr => ExprTupleSize
  | .CastExpr => CastExprTupleSize
  | .ExplicitCastExpr => ExplicitCastExprTupleSize
  | .CXXNamedCastExpr => CXXNamedCastExprTupleSize
  | .OverloadExpr => OverloadExprTupleSize
  | .NullStmt => NullStmtTupleSize
  | .CompoundStmt => CompoundStmtTupleSize
  | .DeclStmt => DeclStmtTupleSize
  | .AttributedStmt => AttributedStmtTupleSize
  | .LabelStmt => LabelStmtTupleSize
  | .GotoStmt => GotoStmtTupleSize
  | .CXXCatchStmt => CXXCatchStmtTupleSize
  | .ObjCAtCatchStmt => ObjCAtCatchStmtTupleSize
  | .CallExpr => CallExprTupleSize
  | .ImplicitCastExpr => ImplicitCastExprTupleSize
  | .CStyleCastExpr => CStyleCastExprTupleSize
  | .CXXStaticCastExpr => CXXStaticCastExprTupleSize
  | .DeclRefExpr => DeclRefExprTupleSize
  | .PredefinedExpr => PredefinedExprTupleSize
  | .CharacterLiteral => CharacterLiteralTupleSize
  | .IntegerLiteral => IntegerLiteralTupleSize
  | .FloatingLiteral => FloatingLiteralTupleSize
  | .StringLiteral => StringLiteralTupleSize
  | .UnaryOperator => UnaryOperatorTupleSize
  | .UnaryExprOrTypeTraitExpr => UnaryExprOrTypeTraitExprTupleSize
  | .MemberExpr => MemberExprTupleSize
  | .ExtVectorElementExpr => ExtVectorElementExprTupleSize
  | .BinaryOperator => BinaryOperatorTupleSize
  | .CompoundAssignOperator => CompoundAssignOperatorTupleSize
  | .AddrLabelExpr => AddrLabelExprTupleSize
  | .BlockExpr => BlockExprTupleSize
  | .OpaqueValueExpr => OpaqueValueExprTupleSize
  | .CXXBoolLiteralExpr => CXXBoolLiteralExprTupleSize
  | .CXXConstructExpr => CXXConstructExprTupleSize
  | .CXXBindTemporaryExpr => CXXBindTemporaryExprTupleSize
  | .MaterializeTemporaryExpr => MaterializeTemporaryExprTupleSize
  | .ExprWithCleanups => ExprWithCleanupsTupleSize
  | .UnresolvedLookupExpr => UnresolvedLookupExprTupleSize
  | .LambdaExpr => LambdaExprTupleSize
  | .CXXNewExpr => CXXNewExprTupleSize
  | .CXXDeleteExpr => CXXDeleteExprTupleSize
  | .ObjCMessageExpr => ObjCMessageExprTupleSize
  | .ObjCBoxedExpr => ObjCBoxedExprTupleSize
  | .ObjCEncodeExpr => ObjCEncodeExprTupleSize
  | .ObjCSelectorExpr => ObjCSelectorExprTupleSize
  | .ObjCProtocolExpr => ObjCProtocolExprTupleSize
  | .ObjCPropertyRefExpr => ObjCPropertyRefExprTupleSize
  | .ObjCSubscriptRefExpr => ObjCSubscriptRefExprTupleSize
  | .ObjCIvarRefExpr => ObjCIvarRefExprTupleSize
  | .ObjCBoolLiteralExpr => ObjCBoolLiteralExprTupleSize

def stmtVisitParent : StmtKind → Option StmtKind
  | .Stmt => none
  | .Expr => some .Stmt                        -- line 2591
  | .CastExpr => some .Expr                    -- line 2723
  | .ExplicitCastExpr => some .CastExpr        -- line 2745
  | .CXXNamedCastExpr => some .ExplicitCastExpr  -- line 3253
  | .OverloadExpr => some .Expr                -- line 2790
  | .NullStmt => some .Stmt                    -- visitor fallback
  | .CompoundStmt => some .Stmt                -- visitor fallback
  | .DeclStmt => some .Stmt                    -- line 2493
  | .AttributedStmt => some .Stmt              -- line 2508
  | .LabelStmt => some .Stmt                   -- line 2523
  | .GotoStmt => some .Stmt                    -- line 2539
  | .CXXCatchStmt => some .Stmt                -- line 2558
  | .ObjCAtCatchStmt => some .Stmt             -- line 3540
  | .CallExpr => some .Expr                    -- visitor fallback
  | .ImplicitCastExpr => some .CastExpr        -- visitor fallback
  | .CStyleCastExpr => some .ExplicitCastExpr  -- visitor fallback
  | .CXXStaticCastExpr => some .CXXNamedCastExpr  -- visitor fallback
  | .DeclRefExpr => some .Expr                 -- line 2761
  | .PredefinedExpr => some .Expr              -- line 2878
  | .CharacterLiteral => some .Expr            -- line 2898
  | .IntegerLiteral => some .Expr              -- line 2915
  | .FloatingLiteral => some .Expr             -- line 2935
  | .StringLiteral => some .Expr               -- line 2949
  | .UnaryOperator => some .Expr               -- line 2980
  | .UnaryExprOrTypeTraitExpr => some .Expr    -- line 3019
  | .MemberExpr => some .Expr                  -- line 3055
  | .ExtVectorElementExpr => some .Expr        -- line 3076
  | .BinaryOperator => some .Expr              -- line 3126
  | .CompoundAssignOperator => some .BinaryOperator  -- line 3177
  | .AddrLabelExpr => some .Expr               -- line 3233
  | .BlockExpr => some .Expr                   -- line 3193
  | .OpaqueValueExpr => some .Expr             -- line 3208
  | .CXXBoolLiteralExpr => some .Expr          -- line 3265
  | .CXXConstructExpr => some .Expr            -- line 3282
  | .CXXBindTemporaryExpr => some .Expr        -- line 3306
  | .MaterializeTemporaryExpr => some .Expr    -- line 3323
  | .ExprWithCleanups => some .Expr            -- line 3345
  | .UnresolvedLookupExpr => some .OverloadExpr  -- line 2821
  | .LambdaExpr => some .Expr                  -- line 3375
  | .CXXNewExpr => some .Expr                  -- line 3392
  | .CXXDeleteExpr => some .Expr               -- line 3423
  | .ObjCMessageExpr => some .Expr             -- line 3450
  | .ObjCBoxedExpr => some .Expr               -- line 3524
  | .ObjCEncodeExpr => some .Expr              -- line 3557
  | .ObjCSelectorExpr => some .Expr            -- line 3569
  | .ObjCProtocolExpr => some .Expr            -- line 3581
  | .ObjCPropertyRefExpr => some .Expr         -- line 3611
  | .ObjCSubscriptRefExpr => some .Expr        -- line 3661
  | .ObjCIvarRefExpr => some .Expr             -- line 2849
  | .ObjCBoolLiteralExpr => some .Expr         -- line 3691

def stmtOwnTrace : StmtKind → List String
  | .Stmt => ["stmt_info", "stmt list"]        -- lines 2469-2482: object, children array
  | .Expr => ["expr_info"]                     -- lines 2593-2635
  | .CastExpr => ["cast_expr_info"]            -- lines 2724-2734
  | .ExplicitCastExpr => ["qual_type"]         -- line 2746
  | .CXXNamedCastExpr => ["string"]            -- line 3254
  | .OverloadExpr => ["overload_expr_info"]    -- lines 2792-2805
  | .NullStmt => []
  | .CompoundStmt => []
  | .DeclStmt => ["decl list"]                 -- lines 2494-2497
  | .AttributedStmt => ["attribute list"]      -- lines 2509-2512
  | .LabelStmt => ["string"]                   -- line 2524
  | .GotoStmt => ["goto_stmt_info"]            -- lines 2540-2544
  | .CXXCatchStmt => ["cxx_catch_stmt_info"]   -- lines 2560-2566
  | .ObjCAtCatchStmt => ["obj_c_message_expr_kind"]  -- lines 3541-3546: one variant
  | .CallExpr => []
  | .ImplicitCastExpr => []
  | .CStyleCastExpr => []
  | .CXXStaticCastExpr => []
  | .DeclRefExpr => ["decl_ref_expr_info"]     -- lines 2763-2775
  | .PredefinedExpr => ["predefined_expr_type"]  -- lines 2879-2887: one variant
  | .CharacterLiteral => ["int"]               -- line 2899
  | .IntegerLiteral => ["integer_literal_info"]  -- lines 2917-2924
  | .FloatingLiteral => ["string"]             -- lines 2936-2938
  | .StringLiteral => ["string"]               -- line 2950
  | .UnaryOperator => ["unary_operator_info"]  -- lines 2982-3001
  | .UnaryExprOrTypeTraitExpr => ["unary_expr_or_type_trait_expr_info"]  -- lines 3021-3039
  | .MemberExpr => ["member_expr_info"]        -- lines 3057-3065
  | .ExtVectorElementExpr => ["string"]        -- line 3077
  | .BinaryOperator => ["binary_operator_info"]  -- lines 3127-3162
  | .CompoundAssignOperator => ["compound_assign_operator_info"]  -- lines 3178-3182
  | .AddrLabelExpr => ["addr_label_expr_info"] -- lines 3234-3238
  | .BlockExpr => ["decl"]                     -- line 3194: dumpDecl
  | .OpaqueValueExpr => ["opaque_value_expr_info"]  -- lines 3210-3216
  | .CXXBoolLiteralExpr => ["int"]             -- line 3266
  | .CXXConstructExpr => ["cxx_construct_expr_info"]  -- lines 3284-3292
  | .CXXBindTemporaryExpr => ["cxx_bind_temporary_expr_info"]  -- lines 3307-3309
  | .MaterializeTemporaryExpr => ["materialize_temporary_expr_info"]  -- lines 3325-3330
  | .ExprWithCleanups => ["expr_with_cleanups_info"]  -- lines 3347-3357
  | .UnresolvedLookupExpr => ["unresolved_lookup_expr_info"]  -- lines 2823-2833
  | .LambdaExpr => ["decl"]                    -- line 3376: dumpDecl
  | .CXXNewExpr => ["cxx_new_expr_info"]       -- lines 3394-3409
  | .CXXDeleteExpr => ["cxx_delete_expr_info"] -- lines 3425-3428
  | .ObjCMessageExpr => ["obj_c_message_expr_info"]  -- lines 3452-3506
  | .ObjCBoxedExpr => ["selector"]             -- line 3525
  | .ObjCEncodeExpr => ["qual_type"]           -- line 3558
  | .ObjCSelectorExpr => ["selector"]          -- line 3570
  | .ObjCProtocolExpr => ["decl_ref"]          -- line 3582
  | .ObjCPropertyRefExpr => ["obj_c_property_ref_expr_info"]  -- lines 3613-3641
  | .ObjCSubscriptRefExpr => ["obj_c_subscript_ref_expr_info"]  -- lines 3663-3680
  | .ObjCIvarRefExpr => ["obj_c_ivar_ref_expr_info"]  -- lines 2851-2858
  | .ObjCBoolLiteralExpr => ["int"]            -- line 3692

def stmtVisitTrace : Nat → StmtKind → List String
  | 0, _ => []
  | fuel + 1, k =>
    (match stmtVisitParent k with
     | none => []
     | some p => stmtVisitTrace fuel p) ++ stmtOwnTrace k

def stmtChain : Nat → StmtKind → List StmtKind
  | 0, _ => []
  | fuel + 1, k =>
    (match stmtVisitParent k with
     | none => []
     | some p => stmtChain fuel p) ++ [k]

/-! ## Node frames

`dumpDecl` (source lines 1048-1059) and `dumpStmt` (lines 2444-2455)
open exactly one variant tagged with the kind name wrapping one tuple
whose declared size comes from the resolver; `dumpType` (lines
3891-3905) and `dumpComment` (lines 3724-3735) open the tuple *without*
a declared size (`TupleScope Scope(OF)`). -/

structure NodeFrame : Type where
  tag : String
  declaredSize : Option Nat
  items : List String
  deriving DecidableEq, Repr

/-- The frame `dumpDecl` produces for a node of kind `k`: variant tagged
`getDeclKindName() + "Decl"`, tuple declared at
`tupleSizeOfDeclKind(D->getKind())`, filled by the visit dispatch. -/
def dumpDeclFrame (k : DeclKind) : NodeFrame :=
  ⟨declKindName k ++ "Decl", some (tupleSizeOfDeclKind k), declVisitTrace chainFuel k⟩

/-- The frame `dumpStmt` produces for a node of class `s`. -/
def dumpStmtFrame (s : StmtKind) : NodeFrame :=
  ⟨stmtKindName s, some (tupleSizeOfStmtKind s), stmtVisitTrace chainFuel s⟩

/-! ## Type family -/

inductive TypeKind : Type where
  | Adjusted | ConstantArray | IncompleteArray | Atomic | BlockPointer
  | Builtin | Decltype | FunctionProto | MemberPointer
  | ObjCObjectPointer | ObjCObject | ObjCInterface | Paren | Pointer
  | LValueReference | RValueReference | Record | Enum | Typedef
  deriving DecidableEq, Repr, Fintype

/-- The result of `T->getTypeClassName()`. -/
def typeKindName : TypeKind → String
  | .Adjusted => "Adjusted"
  | .ConstantArray => "ConstantArray"
  | .IncompleteArray => "IncompleteArray"
  | .Atomic => "Atomic"
  | .BlockPointer => "BlockPointer"
  | .Builtin => "Builtin"
  | .Decltype => "Decltype"
  | .FunctionProto => "FunctionProto"
  | .MemberPointer => "MemberPointer"
  | .ObjCObjectPointer => "ObjCObjectPointer"
  | .ObjCObject => "ObjCObject"
  | .ObjCInterface => "ObjCInterface"
  | .Paren => "Paren"
  | .Pointer => "Pointer"
  | .LValueReference => "LValueReference"
  | .RValueReference => "RValueReference"
  | .Record => "Record"
  | .Enum => "Enum"
  | .Typedef => "Typedef"

/-- The variant tag of `dumpType` (source lines 3894-3895): the type
class name, `"None"` for a null type pointer, followed by `"Type"`. -/
def dumpTypeTag : Option TypeKind → String
  | none => "None" ++ "Type"
  | some t => typeKindName t ++ "Type"

/-- Tuple-level emissions of the type visit routines.  `VisitType`
(lines 3924-3942) emits one object; every other routine first calls a
parent routine and appends its own items.  `VisitObjCInterfaceType`
(line 4095) deliberately skips `VisitObjCObjectType` and calls
`VisitType` directly.  Kinds without a routine (`ConstantArray` has one;
`IncompleteArray`, `Record`, `Enum`, the two references do not) fall
back through `TypeVisitor` to the nearest handled base class. -/
def typeVisitTrace : Option TypeKind → List String
  | none => ["type_info"]                                  -- VisitType(nullptr), line 3902
  | some .Adjusted => ["type_info", "type_ptr"]            -- lines 3948-3951
  | some .ConstantArray => ["type_info", "type_ptr", "int"]  -- via VisitArrayType, lines 3957-3969
  | some .IncompleteArray => ["type_info", "type_ptr"]     -- fallback to VisitArrayType
  | some .Atomic => ["type_info", "type_ptr"]              -- lines 3974-3977
  | some .BlockPointer => ["type_info", "type_ptr"]        -- lines 3982-3985
  | some .Builtin => ["type_info", "builtin_type_kind"]    -- lines 3995-4004
  | some .Decltype => ["type_info", "type_ptr"]            -- lines 4009-4012
  | some .FunctionProto => ["type_info", "function_type_info", "params_type_info"]  -- lines 4021-4048
  | some .MemberPointer => ["type_info", "type_ptr"]       -- lines 4053-4056
  | some .ObjCObjectPointer => ["type_info", "type_ptr"]   -- lines 4061-4064
  | some .ObjCObject => ["type_info", "objc_object_type_info"]  -- lines 4073-4090
  | some .ObjCInterface => ["type_info", "pointer"]        -- lines 4095-4099
  | some .Paren => ["type_info", "type_ptr"]               -- lines 4105-4109
  | some .Pointer => ["type_info", "type_ptr"]             -- lines 4115-4118
  | some .LValueReference => ["type_info", "type_ptr"]     -- fallback to VisitReferenceType
  | some .RValueReference => ["type_info", "type_ptr"]     -- fallback to VisitReferenceType
  | some .Record => ["type_info", "pointer"]               -- fallback to VisitTagType
  | some .Enum => ["type_info", "pointer"]                 -- fallback to VisitTagType
  | some .Typedef => ["type_info", "typedef_type_info"]    -- lines 4145-4152

/-- The frame `dumpType` produces: one variant, wrapping a tuple opened
with *no* declared size (`TupleScope Scope(OF);`, source line 3897). -/
def dumpTypeFrame (t : Option TypeKind) : NodeFrame :=
  ⟨dumpTypeTag t, none, typeVisitTrace t⟩

/-! ## Sentinel encodings

The constructor builds three sentinel nodes once (source lines 166-168):
a `NullStmt` with an invalid location, an `EmptyDecl` whose semantic and
lexical context are both the translation unit, and a `NoCommentKind`
comment.  `dumpDecl`/`dumpStmt`/`dumpComment` substitute them for null
pointers; `dumpType` instead handles the null pointer in a dedicated
branch.  The encodings below are the source routines specialized to the
sentinels' fixed attributes: invalid source locations (hence empty
location records and untouched location state), no attributes, no
comment, no children. -/

/-- Raw-mode token: an injective rendering of the address, modelling
`snprintf(str, 20, "%p", Ptr)` (source line 406). -/
def rawRender (p : Ptr) : String := "0x" ++ toString p

/-- Both modes of `writePointer` (source lines 402-416); in anonymized
mode the emitted string is the decimal rendering of the mapped
integer. -/
def writePointer (withPointers : Bool) (st : PtrState) (p : Ptr) :
    String × PtrState :=
  if withPointers then (rawRender p, st)
  else (toString (writePointerAnon st p).1, (writePointerAnon st p).2)

def locRecordToJValue : LocRecord → JValue
  | .empty => .obj 0 []
  | .fileLineCol f l c =>
    .obj 3 [("file", .str f), ("line", .int l), ("column", .int c)]
  | .lineCol l c => .obj 2 [("line", .int l), ("column", .int c)]
  | .colOnly c => .obj 1 [("column", .int c)]

/-- `dumpSourceRange` (source lines 469-474): a two-tuple of the two
locations, threading the compressor state. -/
def dumpSourceRange (st : LocState) (b e : Option Loc) : JValue × LocState :=
  (.tup (some 2)
     [locRecordToJValue (dumpSourceLocation st b).1,
      locRecordToJValue (dumpSourceLocation (dumpSourceLocation st b).2 e).1],
   (dumpSourceLocation (dumpSourceLocation st b).2 e).2)

/-- Encoding of a null declaration reference: `dumpDecl(nullptr)`
substitutes `NullPtrDecl` (an `EmptyDecl`, source lines 1050-1053) and
produces the `EmptyDecl` variant wrapping a 1-tuple holding the
`VisitDecl` object.  For the sentinel the object's conditional fields
are all absent: no parent pointer (lexical context equals semantic
context), no previous declaration, no owning module, all flags false,
no attributes, no comment; its source range is two invalid locations. -/
def encodeNullDecl (withPointers : Bool) (addr : Ptr) (st : ExporterState) :
    JValue × ExporterState :=
  (.variant "EmptyDecl"
     (.tup (some (tupleSizeOfDeclKind .EmptyDecl))
        [.obj 4
           [("pointer", .str (writePointer withPointers st.ptrs addr).1),
            ("source_range", (dumpSourceRange st.locSt none none).1),
            ("attributes", .arr 0 [])]]),
   ⟨(writePointer withPointers st.ptrs addr).2,
    (dumpSourceRange st.locSt none none).2⟩)

/-- Encoding of a null statement reference: `dumpStmt(nullptr)`
substitutes `NullPtrStmt` (a `NullStmt` at an invalid location, source
lines 2446-2449); `NullStmt` has no dedicated visitor, so `VisitStmt`
runs: a `stmt_info` object and an empty children array. -/
def encodeNullStmt (withPointers : Bool) (addr : Ptr) (st : ExporterState) :
    JValue × ExporterState :=
  (.variant "NullStmt"
     (.tup (some (tupleSizeOfStmtKind .NullStmt))
        [.obj 2
           [("pointer", .str (writePointer withPointers st.ptrs addr).1),
            ("source_range", (dumpSourceRange st.locSt none none).1)],
         .arr 0 []]),
   ⟨(writePointer withPointers st.ptrs addr).2,
    (dumpSourceRange st.locSt none none).2⟩)

/-- The address-like value of the null pointer itself: `dumpType`'s null
branch passes `nullptr` straight to `dumpPointer`. -/
def nullAddr : Ptr := 0

/-- What `QualType(nullptr, 0).getAsString()` renders; the exact string
is immaterial to the claims, only that it is a fixed constant. -/
def nullTypeRaw : String := "NULL TYPE"

/-- Encoding of a null type reference: `dumpType(nullptr)` (source lines
3891-3905) opens the `NoneType` variant and an unsized tuple, and runs
`VisitType(nullptr)`: an object with the null pointer's token and the
raw rendering (no desugared type since `T` is null). -/
def encodeNullType (withPointers : Bool) (st : ExporterState) :
    JValue × ExporterState :=
  (.variant (dumpTypeTag none)
     (.tup none
        [.obj 2
           [("pointer", .str (writePointer withPointers st.ptrs nullAddr).1),
            ("raw", .str nullTypeRaw)]]),
   ⟨(writePointer withPointers st.ptrs nullAddr).2, st.locSt⟩)

/-! ## By-value / by-reference traversal model

A small abstract syntax tree faithful to the by-value dumping sites of
the source: a `DeclContext` listing (`VisitDeclContext`, lines 595-626)
dumps its retained members by value; `VisitFunctionDecl` dumps its
parameters by value inside `function_decl_info` and deliberately does
not call `VisitDeclContext` (lines 1386-1387); `VisitDeclStmt` dumps its
declarations by value (lines 2492-2498); `VisitDeclRefExpr` encodes its
target by reference through `dumpDeclRef` (lines 2759-2776).  Every
node's own pointer is emitted by `VisitDecl`/`VisitStmt`. -/

mutual

inductive DeclM : Type where
  | var (p : Ptr) (file : String)
  | record (p : Ptr) (file : String) (members : List DeclM)
  | func (p : Ptr) (file : String) (params : List DeclM) (body : Option StmtM)
  deriving Repr

inductive StmtM : Type where
  | declStmt (p : Ptr) (decls : List DeclM)
  | declRefExpr (p : Ptr) (target : Ptr)
  | compound (p : Ptr) (stmts : List StmtM)
  deriving Repr

end

inductive NodeM : Type where
  | d (x : DeclM)
  | s (x : StmtM)
  deriving Repr

/-- How a pointer occurrence was produced: a full recursive encoding
(`dumpDecl`), flagged with whether it sits in a `DeclContext` member
listing; a by-reference record (`dumpDeclRef`); or the node-identity
field of a statement (`stmt_info`). -/
inductive Occ : Type where
  | byValue (inListing : Bool)
  | byRef
  | internal
  deriving DecidableEq, Repr

abbrev Event : Type := Ptr × Occ

def Occ.isByValue : Occ → Bool
  | .byValue _ => true
  | _ => false

def DeclM.file : DeclM → String
  | .var _ f => f
  | .record _ f _ => f
  | .func _ f _ _ => f

def DeclM.ptr : DeclM → Ptr
  | .var p _ => p
  | .record p _ _ => p
  | .func p _ _ _ => p

/-- The member filter of `VisitDeclContext` (source lines 603-612): a
declaration is retained when no deduplication service is configured or
when `shouldTraverseDeclFile` accepts its file. -/
def declContextKeep (dedup : Bool) (filt : String → Bool) (ds : List DeclM) :
    List DeclM :=
  ds.filter (fun d => !dedup || filt d.file)

/-- The declared length of the member array emitted by
`VisitDeclContext`: `ArrayScope Scope(OF, declsToDump.size())` (source
line 613), where `declsToDump` holds exactly the retained members. -/
def visitDeclContextArrayLen (dedup : Bool) (filt : String → Bool)
    (ds : List DeclM) : Nat :=
  (declContextKeep dedup filt ds).length

/-- The pointer-occurrence sequence of the traversal, in emission order.
Structurally recursive on `fuel` so that it evaluates on concrete
trees; a fuel of at least the tree height suffices and the claims are
stated uniformly in the fuel. -/
def encNode (fuel : Nat) (dedup : Bool) (filt : String → Bool)
    (inListing : Bool) : NodeM → List Event :=
  match fuel with
  | 0 => fun _ => []
  | fuel + 1 => fun n =>
    match n with
    | .d (.var p _) => [(p, .byValue inListing)]
    | .d (.record p _ members) =>
      (p, .byValue inListing) ::
        (declContextKeep dedup filt members).flatMap
          (fun m => encNode fuel dedup filt true (.d m))
    | .d (.func p _ params body) =>
      (p, .byValue inListing) ::
        (params.flatMap (fun q => encNode fuel dedup filt false (.d q)) ++
          match body with
          | none => []
          | some b => encNode fuel dedup filt false (.s b))
    | .s (.declStmt p ds) =>
      (p, .internal) ::
        ds.flatMap (fun m => encNode fuel dedup filt false (.d m))
    | .s (.declRefExpr p target) =>
      [(p, .internal), (target, .byRef)]
    | .s (.compound p ss) =>
      (p, .internal) ::
        ss.flatMap (fun t => encNode fuel dedup filt false (.s t))

/-- All declaration nodes of a tree (their pointers), truncated at the
same fuel as the traversal. -/
def declPtrsN (fuel : Nat) : NodeM → List Ptr :=
  match fuel with
  | 0 => fun _ => []
  | fuel + 1 => fun n =>
    match n with
    | .d (.var p _) => [p]
    | .d (.record p _ members) =>
      p :: members.flatMap (fun m => declPtrsN fuel (.d m))
    | .d (.func p _ params body) =>
      p :: (params.flatMap (fun q => declPtrsN fuel (.d q)) ++
        match body with
        | none => []
        | some b => declPtrsN fuel (.s b))
    | .s (.declStmt _ ds) => ds.flatMap (fun m => declPtrsN fuel (.d m))
    | .s (.declRefExpr _ _) => []
    | .s (.compound _ ss) => ss.flatMap (fun t => declPtrsN fuel (.s t))

/-- The number of by-value occurrences of pointer `q` in an event
sequence. -/
def countByValue (q : Ptr) (es : List Event) : Nat :=
  es.countP (fun e => e.1 == q && e.2.isByValue)

/-- The `decl_ref` record of `dumpDeclRef` (source lines 565-585) at the
event level: one by-reference occurrence of the target; the filter is
not consulted. -/
def dumpDeclRefEvents (target : Ptr) : List Event := [(target, .byRef)]

/-! ## Lemmas about the location compressor -/

theorem decodeLoc_dumpSourceLocation (st : LocState) (p : Option Loc) :
    decodeLoc st (dumpSourceLocation st p).1 = (p, (dumpSourceLocation st p).2) := by
  cases p with
  | none => rfl
  | some q =>
    obtain ⟨f, l, c⟩ := q
    by_cases h1 : f = st.lastFile
    · by_cases h2 : l = st.lastLine
      · subst h1; subst h2; simp [dumpSourceLocation, decodeLoc]
      · subst h1; simp [dumpSourceLocation, decodeLoc, h2]
    · simp [dumpSourceLocation, decodeLoc, h1]

theorem decodeLocs_encodeLocs (ps : List (Option Loc)) :
    ∀ st : LocState,
      decodeLocs st (encodeLocs st ps).1 = (ps, (encodeLocs st ps).2) := by
  induction ps with
  | nil => intro st; rfl
  | cons p ps ih =>
    intro st
    simp only [encodeLocs, decodeLocs, decodeLoc_dumpSourceLocation, ih]

/-! ## Lemmas about the identity table -/

theorem lookupIdx_eq_none (l : List Ptr) (p : Ptr) :
    lookupIdx l p = none ↔ p ∉ l := by
  induction l with
  | nil => simp [lookupIdx]
  | cons a t ih =>
    by_cases h : a = p
    · simp [lookupIdx, h]
    · simp [lookupIdx, h, ih, Ne.symm h]

theorem lookupIdx_isSome_of_mem {l : List Ptr} {p : Ptr} (h : p ∈ l) :
    ∃ i, lookupIdx l p = some i := by
  cases hi : lookupIdx l p with
  | none => exact absurd h ((lookupIdx_eq_none l p).mp hi)
  | some i => exact ⟨i, rfl⟩

theorem lookupIdx_get {l : List Ptr} {p : Ptr} {i : Nat}
    (h : lookupIdx l p = some i) :
    ∃ hi : i < l.length, l.get ⟨i, hi⟩ = p := by
  induction l generalizing i with
  | nil => simp [lookupIdx] at h
  | cons a t ih =>
    by_cases ha : a = p
    · simp [lookupIdx, ha] at h
      subst h
      exact ⟨Nat.succ_pos _, ha⟩
    · simp [lookupIdx, ha] at h
      obtain ⟨j, hj, rfl⟩ := h
      obtain ⟨hjl, hget⟩ := ih hj
      exact ⟨Nat.succ_lt_succ hjl, hget⟩

theorem lookupIdx_append_some {l : List Ptr} {p : Ptr} {i : Nat}
    (t : List Ptr) (h : lookupIdx l p = some i) :
    lookupIdx (l ++ t) p = some i := by
  induction l generalizing i with
  | nil => simp [lookupIdx] at h
  | cons a l ih =>
    by_cases ha : a = p
    · simp [lookupIdx, ha] at h ⊢
      exact h
    · simp [lookupIdx, ha] at h ⊢
      obtain ⟨j, hj, rfl⟩ := h
      exact ⟨j, ih hj, rfl⟩

theorem lookupIdx_mono {l l' : List Ptr} {p : Ptr} {i : Nat}
    (hpre : l <+: l') (h : lookupIdx l p = some i) :
    lookupIdx l' p = some i := by
  obtain ⟨t, rfl⟩ := hpre
  exact lookupIdx_append_some t h

theorem lookupIdx_append_self {l : List Ptr} {p : Ptr} (h : p ∉ l) :
    lookupIdx (l ++ [p]) p = some l.length := by
  induction l with
  | nil => simp [lookupIdx]
  | cons a t ih =>
    have ha : ¬a = p := fun hc => h (hc ▸ List.mem_cons_self a t)
    have ht : p ∉ t := fun hc => h (List.mem_cons_of_mem a hc)
    simp [lookupIdx, ha, ih ht]

theorem writePointerAnon_mono (st : PtrState) (p : Ptr) :
    st.seen <+: (writePointerAnon st p).2.seen := by
  unfold writePointerAnon
  cases lookupIdx st.seen p with
  | none => exact ⟨[p], rfl⟩
  | some i => exact List.prefix_refl _

theorem writePointerAnon_token (st : PtrState) (p : Ptr) :
    lookupIdx (writePointerAnon st p).2.seen p = some (writePointerAnon st p).1 := by
  unfold writePointerAnon
  cases hi : lookupIdx st.seen p with
  | none => exact lookupIdx_append_self ((lookupIdx_eq_none _ _).mp hi)
  | some i => exact hi

theorem runTokensFrom_mono (ps : List Ptr) :
    ∀ st : PtrState, st.seen <+: (runTokensFrom st ps).2.seen := by
  induction ps with
  | nil => intro st; exact List.prefix_refl _
  | cons p ps ih =>
    intro st
    exact List.IsPrefix.trans (writePointerAnon_mono st p) (ih _)

theorem runTokensFrom_seen (ps : List Ptr) :
    ∀ st : PtrState,
      (runTokensFrom st ps).2.seen = st.seen ++ firstSeenFrom st.seen ps := by
  induction ps with
  | nil => intro st; simp [runTokensFrom, firstSeenFrom]
  | cons p ps ih =>
    intro st
    by_cases hm : p ∈ st.seen
    · obtain ⟨i, hi⟩ := lookupIdx_isSome_of_mem hm
      simp [runTokensFrom, writePointerAnon, hi, firstSeenFrom, hm, ih]
    · have hnone : lookupIdx st.seen p = none := (lookupIdx_eq_none _ _).mpr hm
      simp [runTokensFrom, writePointerAnon, hnone, firstSeenFrom, hm, ih]

theorem runTokensFrom_tokens (ps : List Ptr) :
    ∀ st : PtrState,
      (runTokensFrom st ps).1 =
        ps.map (fun p => (lookupIdx (runTokensFrom st ps).2.seen p).getD 0) := by
  induction ps with
  | nil => intro st; rfl
  | cons p ps ih =>
    intro st
    have hstable :
        lookupIdx (runTokensFrom (writePointerAnon st p).2 ps).2.seen p =
          some (writePointerAnon st p).1 :=
      lookupIdx_mono (runTokensFrom_mono ps _) (writePointerAnon_token st p)
    simp only [runTokensFrom, List.map_cons, hstable, Option.getD_some]
    exact congrArg _ (ih _)

theorem mem_firstSeenFrom {q : Ptr} (ps : List Ptr) :
    ∀ seen : List Ptr, q ∈ firstSeenFrom seen ps → q ∉ seen := by
  induction ps with
  | nil => intro seen h; simp [firstSeenFrom] at h
  | cons p ps ih =>
    intro seen h
    by_cases hm : p ∈ seen
    · simp [firstSeenFrom, hm] at h
      exact ih seen h
    · simp [firstSeenFrom, hm] at h
      rcases h with rfl | h
      · exact hm
      · intro hq
        exact ih (seen ++ [p]) h (by simp [hq])

theorem mem_firstSeenFrom_of_mem {q : Ptr} (ps : List Ptr) :
    ∀ seen : List Ptr, q ∈ ps → q ∉ seen → q ∈ firstSeenFrom seen ps := by
  induction ps with
  | nil => intro seen h; simp at h
  | cons p ps ih =>
    intro seen h hq
    by_cases hm : p ∈ seen
    · rcases List.mem_cons.mp h with rfl | h
      · exact absurd hm hq
      · simpa [firstSeenFrom, hm] using ih seen h hq
    · rcases List.mem_cons.mp h with rfl | h
      · simp [firstSeenFrom, hm]
      · by_cases hqp : q = p
        · subst hqp; simp [firstSeenFrom, hm]
        · have : q ∉ seen ++ [p] := by simp [hq, hqp]
          simpa [firstSeenFrom, hm] using Or.inr (ih (seen ++ [p]) h this)

theorem firstSeenFrom_nodup (ps : List Ptr) :
    ∀ seen : List Ptr, (firstSeenFrom seen ps).Nodup := by
  induction ps with
  | nil => intro seen; simp [firstSeenFrom]
  | cons p ps ih =>
    intro seen
    by_cases hm : p ∈ seen
    · simpa [firstSeenFrom, hm] using ih seen
    · have hp : p ∉ firstSeenFrom (seen ++ [p]) ps := fun hc =>
        mem_firstSeenFrom ps (seen ++ [p]) hc (by simp)
      simpa [firstSeenFrom, hm] using ⟨hp, ih (seen ++ [p])⟩

theorem runTokens_eq_map_firstSeen (ps : List Ptr) :
    runTokens ps = ps.map (fun p => (lookupIdx (firstSeen ps) p).getD 0) := by
  unfold runTokens
  rw [runTokensFrom_tokens]
  simp only [runTokensFrom_seen]
  simp [initPtrState, firstSeen]

theorem runTokens_getD_iff (ps : List Ptr) (i j : Nat)
    (hi : i < ps.length) (hj : j < ps.length) :
    ((runTokens ps).getD i 0 = (runTokens ps).getD j 0 ↔
      ps.getD i 0 = ps.getD j 0) := by
  have hmap : ∀ m, (hm : m < ps.length) →
      (runTokens ps).getD m 0 = (lookupIdx (firstSeen ps) ps[m]).getD 0 := by
    intro m hm
    rw [runTokens_eq_map_firstSeen, List.getD_eq_getElem _ _ (by simpa using hm)]
    simp
  rw [hmap i hi, hmap j hj,
      List.getD_eq_getElem _ _ hi, List.getD_eq_getElem _ _ hj]
  constructor
  · intro h
    have hfi : ps[i] ∈ firstSeen ps :=
      mem_firstSeenFrom_of_mem ps [] (List.getElem_mem hi) (by simp)
    have hfj : ps[j] ∈ firstSeen ps :=
      mem_firstSeenFrom_of_mem ps [] (List.getElem_mem hj) (by simp)
    obtain ⟨a, ha⟩ := lookupIdx_isSome_of_mem hfi
    obtain ⟨b, hb⟩ := lookupIdx_isSome_of_mem hfj
    rw [ha, hb] at h
    simp at h
    subst h
    obtain ⟨hlt, hget⟩ := lookupIdx_get ha
    obtain ⟨hlt2, hget2⟩ := lookupIdx_get hb
    rw [← hget, ← hget2]
  · intro h
    rw [h]

theorem lookupIdx_get_of_nodup (l : List Ptr) :
    l.Nodup → ∀ (i : Nat) (hi : i < l.length), lookupIdx l l[i] = some i := by
  induction l with
  | nil => intro _ i hi; simp at hi
  | cons a t ih =>
    intro h i hi
    cases i with
    | zero => simp [lookupIdx]
    | succ j =>
      have hj : j < t.length := Nat.lt_of_succ_lt_succ hi
      have hmem : t[j] ∈ t := List.getElem_mem hj
      have hne : ¬a = t[j] := fun hc => (List.nodup_cons.mp h).1 (hc ▸ hmem)
      simp [lookupIdx, hne, ih (List.nodup_cons.mp h).2 j hj]

/-! ## Lemmas about the name splitter -/

theorem map_getD_range {α : Type} (l : List α) (d : α) :
    (List.range l.length).map (fun i => l.getD i d) = l := by
  induction l with
  | nil => rfl
  | cons a t ih =>
    rw [List.length_cons, List.range_succ_eq_map]
    simp only [List.map_cons, List.getD_cons_zero, List.map_map]
    have hf : ((fun i => (a :: t).getD i d) ∘ Nat.succ) = (fun i => t.getD i d) := by
      funext i; rfl
    rw [hf, ih]

theorem emitDownLoop_eq_reverse (l : List (List Char)) :
    emitDownLoop l = l.reverse := by
  unfold emitDownLoop
  rw [List.map_reverse, map_getD_range]

theorem findColons_cons (c : Char) (t : List Char) :
    findColons (c :: t) =
      if c = ':' ∧ t.head? = some ':' then some 0
      else (findColons t).map (· + 1) := rfl

theorem findColons_take_drop {l : List Char} {k : Nat}
    (h : findColons l = some k) :
    l.take k ++ ':' :: ':' :: l.drop (k + 2) = l := by
  induction l generalizing k with
  | nil => simp [findColons] at h
  | cons c t ih =>
    by_cases hc : c = ':' ∧ t.head? = some ':'
    · simp [findColons, hc] at h
      subst h
      obtain ⟨hc1, hc2⟩ := hc
      cases t with
      | nil => simp at hc2
      | cons b t' =>
        obtain rfl : c = ':' := hc1
        obtain rfl : b = ':' := by simpa using hc2
        rfl
    · simp [findColons, hc] at h
      obtain ⟨j, hj, rfl⟩ := h
      simp [List.take_succ_cons, List.drop_succ_cons, ih hj]

theorem findColons_bound {l : List Char} {k : Nat}
    (h : findColons l = some k) : k + 2 ≤ l.length := by
  induction l generalizing k with
  | nil => simp [findColons] at h
  | cons c t ih =>
    by_cases hc : c = ':' ∧ t.head? = some ':'
    · simp [findColons, hc] at h
      subst h
      obtain ⟨_, hc2⟩ := hc
      cases t with
      | nil => simp at hc2
      | cons b t' => simp only [List.length_cons]; omega
    · simp [findColons, hc] at h
      obtain ⟨j, hj, rfl⟩ := h
      have := ih hj
      simp only [List.length_cons]
      omega

theorem head?_take {l : List Char} {j : Nat} {x : Char}
    (h : (l.take j).head? = some x) : l.head? = some x := by
  cases l with
  | nil => simp at h
  | cons a t =>
    cases j with
    | zero => simp at h
    | succ j => simpa using h

theorem findColons_take {l : List Char} {k : Nat}
    (h : findColons l = some k) : findColons (l.take k) = none := by
  induction l generalizing k with
  | nil => simp [findColons] at h
  | cons c t ih =>
    by_cases hc : c = ':' ∧ t.head? = some ':'
    · simp [findColons, hc] at h
      subst h
      simp [findColons]
    · simp [findColons, hc] at h
      obtain ⟨j, hj, rfl⟩ := h
      rw [List.take_succ_cons, findColons_cons]
      have hcond : ¬(c = ':' ∧ (t.take j).head? = some ':') := by
        rintro ⟨h1, h2⟩
        exact hc ⟨h1, head?_take h2⟩
      simp [hcond, ih hj]

theorem singleton_prefix_head? (t : List Char) :
    [':'] <+: t ↔ t.head? = some ':' := by
  cases t with
  | nil => simp
  | cons b t' => simp [List.cons_prefix_cons, eq_comm]

theorem findColons_none_iff (l : List Char) :
    findColons l = none ↔ ¬ [':', ':'] <:+: l := by
  induction l with
  | nil => simp [findColons]
  | cons c t ih =>
    rw [findColons_cons, List.infix_cons_iff]
    have hpre : ([':', ':'] <+: c :: t) ↔ (c = ':' ∧ t.head? = some ':') := by
      rw [List.cons_prefix_cons, singleton_prefix_head?, eq_comm]
    by_cases hc : c = ':' ∧ t.head? = some ':'
    · have hp : [':', ':'] <+: c :: t := hpre.mpr hc
      rw [if_pos hc]
      exact ⟨fun h0 => absurd h0 (by simp), fun hn => absurd (Or.inl hp) hn⟩
    · simp [hc, hpre, ih]

theorem splitQualFuel_ne_nil (fuel : Nat) (l : List Char) :
    splitQualFuel fuel l ≠ [] := by
  cases fuel with
  | zero => simp [splitQualFuel]
  | succ f => cases h : findColons l <;> simp [splitQualFuel, h]

theorem splitQualFuel_spec (fuel : Nat) :
    ∀ l : List Char, l.length ≤ fuel →
      joinColons (splitQualFuel fuel l) = l
      ∧ ∀ c ∈ splitQualFuel fuel l, findColons c = none := by
  induction fuel with
  | zero =>
    intro l hl
    have : l = [] := List.length_eq_zero.mp (Nat.le_zero.mp hl)
    subst this
    refine ⟨rfl, ?_⟩
    intro c hc
    simp [splitQualFuel] at hc
    subst hc
    rfl
  | succ f ih =>
    intro l hl
    cases hf : findColons l with
    | none =>
      refine ⟨by simp [splitQualFuel, hf, joinColons], ?_⟩
      intro c hc
      simp [splitQualFuel, hf] at hc
      subst hc
      exact hf
    | some k =>
      have hbound := findColons_bound hf
      have hrest : (l.drop (k + 2)).length ≤ f := by
        simp only [List.length_drop]
        omega
      obtain ⟨hjoin, hcomps⟩ := ih (l.drop (k + 2)) hrest
      obtain ⟨x, xs, hx⟩ : ∃ x xs, splitQualFuel f (l.drop (k + 2)) = x :: xs := by
        cases hsp : splitQualFuel f (l.drop (k + 2)) with
        | nil => exact absurd hsp (splitQualFuel_ne_nil f _)
        | cons x xs => exact ⟨x, xs, rfl⟩
      constructor
      · have hjoin3 : joinColons (l.take k :: x :: xs) =
            l.take k ++ ':' :: ':' :: joinColons (x :: xs) := rfl
        simp only [splitQualFuel, hf]
        rw [hx, hjoin3, ← hx, hjoin]
        exact findColons_take_drop hf
      · intro c hc
        simp only [splitQualFuel, hf, List.mem_cons] at hc
        rcases hc with rfl | hc
        · exact findColons_take hf
        · exact hcomps c hc

/-! ## Claim theorems: location compressor -/

/-- Claim C2, counterexample.  The claim keys the empty record on the
invalidity of the *previous* position encoded in the run.  The code
(source lines 437-440) keys it on the invalidity of the position being
encoded: at the initial state (no previous position encoded, i.e. the
previous position is unknown) a valid position produces a full
`{file; line; column}` record, not the empty record; conversely after a
valid position has been encoded, an invalid current position still
produces the empty record. -/
theorem dumpSourceLocation_claimC2_counterexample :
    (dumpSourceLocation initLocState (some ⟨"a.c", 1, 2⟩)).1 ≠ LocRecord.empty
    ∧ (dumpSourceLocation ⟨"a.c", 1⟩ none).1 = LocRecord.empty := by
  decide

/-- Claim C2, amended.  `dumpSourceLocation` emits exactly one of four
record shapes chosen by the validity of the position being encoded and
by comparison with the last emitted file and line: the empty record when
the *current* position is invalid; `{file; line; column}` when the file
differs from the last emitted file; `{line; column}` when the file is
the same but the line differs; `{column}` when both are the same.  The
stored state is unchanged on an invalid position and becomes the encoded
position's file and line otherwise. -/
theorem dumpSourceLocation_claimC2_shape :
    ∀ (st : LocState) (loc : Option Loc),
      (dumpSourceLocation st loc).1 = specShape st loc
      ∧ (dumpSourceLocation st none).2 = st
      ∧ ∀ p : Loc, (dumpSourceLocation st (some p)).2 = ⟨p.file, p.line⟩ := by
  intro st loc
  refine ⟨?_, rfl, ?_⟩
  · cases loc with
    | none => rfl
    | some p =>
      by_cases h1 : p.file = st.lastFile
      · by_cases h2 : p.line = st.lastLine
        · simp [dumpSourceLocation, specShape, h1, h2]
        · simp [dumpSourceLocation, specShape, h1, h2]
      · simp [dumpSourceLocation, specShape, h1]
  · intro p
    simp only [dumpSourceLocation]
    split
    · rfl
    · split <;> rfl

/-- Claim C7: for any sequence of positions encoded in order within one
run (starting from the constructor's initial location state), replaying
the emitted compressed records under the `(file, line)` carry-forward
reconstruction rule reproduces the original sequence exactly, and the
reconstructing reader's carried state tracks the encoder's. -/
theorem dumpSourceLocation_claimC7_roundTrip :
    ∀ ps : List (Option Loc),
      decodeLocs initLocState (encodeLocs initLocState ps).1 =
        (ps, (encodeLocs initLocState ps).2) :=
  fun ps => decodeLocs_encodeLocs ps initLocState

/-! ## Claim theorems: identity table -/

/-- Claim C3: in anonymized mode (`withPointers = false`), over one run
of `writePointer` calls starting from the process-start table, the token
stream is pointwise the index of each pointer in the first-seen list
(so first-seen identities receive the sequential integers 0, 1, 2, ... in
first-seen order: conjunct two), and two emitted tokens are equal if and
only if the corresponding pointers are the same node (conjunct three:
determinism and injectivity, hence stability across repeated encodes of
the same node). -/
theorem writePointer_claimC3_identity :
    ∀ ps : List Ptr,
      runTokens ps = ps.map (fun p => (lookupIdx (firstSeen ps) p).getD 0)
      ∧ (∀ k, k < (firstSeen ps).length →
          lookupIdx (firstSeen ps) ((firstSeen ps).getD k 0) = some k)
      ∧ (∀ i j, i < ps.length → j < ps.length →
          ((runTokens ps).getD i 0 = (runTokens ps).getD j 0 ↔
            ps.getD i 0 = ps.getD j 0)) := by
  intro ps
  refine ⟨runTokens_eq_map_firstSeen ps, ?_, runTokens_getD_iff ps⟩
  intro k hk
  have hnd : (firstSeen ps).Nodup := firstSeenFrom_nodup ps []
  have h := lookupIdx_get_of_nodup (firstSeen ps) hnd k hk
  rwa [List.getD_eq_getElem _ _ hk]

/-- Witness for claim C3 at the concrete run `[5, 7, 5]`: the first and
third calls pass the same pointer, so they receive the same token. -/
theorem writePointer_claimC3_identity_witness :
    (runTokens [5, 7, 5]).getD 0 0 = (runTokens [5, 7, 5]).getD 2 0 :=
  ((writePointer_claimC3_identity [5, 7, 5]).2.2 0 2 (by decide) (by decide)).mpr
    (by decide)

/-- Claim C6, counterexample.  `pointerMap`/`pointerCounter` are
namespace-scope globals (source lines 397-398) that no constructor
resets, so tokens assigned in one export run carry over into the next
run of the same process: after a first run encodes pointer 7, a second
run encoding 9 then 7 yields tokens `[1, 0]` (9 is new and gets the next
counter value 1, 7 keeps its old token 0), whereas a freshly reset table
would yield `[0, 1]`. -/
theorem pointerMap_claimC6_counterexample :
    (runsTokens initPtrState [[7], [9, 7]]).1 = [[0], [1, 0]]
    ∧ runTokens [9, 7] = [0, 1] := by
  decide

/-- Claim C6, amended.  The identity table persists across the whole
traversal and is never reset mid-traversal, but its lifetime is the
process, not the export run: the `ASTExporter` constructor re-creates
only the location state and leaves the table intact, so consecutive runs
continue the same table (conjunct two), and a token, once assigned,
survives any further sequence of `writePointer` calls (conjunct three). -/
theorem pointerMap_claimC6_process_lifetime :
    (∀ g : PtrState, exporterCtor g = ⟨g, initLocState⟩)
    ∧ (∀ (g : PtrState) (r1 r2 : List Ptr),
        (runsTokens g [r1, r2]).1 =
          [(runTokensFrom g r1).1, (runTokensFrom (runTokensFrom g r1).2 r2).1])
    ∧ (∀ (st : PtrState) (p : Ptr) (i : Nat) (ps : List Ptr),
        lookupIdx st.seen p = some i →
        lookupIdx (runTokensFrom st ps).2.seen p = some i) :=
  ⟨fun _ => rfl, fun _ _ _ => rfl,
   fun _ _ _ ps h => lookupIdx_mono (runTokensFrom_mono ps _) h⟩

/-- Witness for amended claim C6: a token assigned before a run (pointer
4 has token 0) is unchanged after the run `[8, 4]` executes. -/
theorem pointerMap_claimC6_process_lifetime_witness :
    lookupIdx ((runTokensFrom ⟨[4]⟩ [8, 4]).2.seen) 4 = some 0 :=
  pointerMap_claimC6_process_lifetime.2.2 ⟨[4]⟩ 4 0 [8, 4] (by decide)

/-! ## Claim theorems: dumpName -/

/-- Claim C10: `dumpName` emits an object with exactly the two fields
`name` (the declaration's name) and `qual_name`, an array whose declared
length equals the number of `"::"`-separated components of the qualified
name and whose elements are exactly those components in reverse order
(the unqualified name first).  Conjuncts two and three substantiate that
`splitQual` computes precisely the `"::"`-separated components: joining
the components back with `"::"` restores the qualified name, and no
component contains the separator. -/
theorem dumpName_claimC10_spec :
    ∀ (name : String) (qualName : List Char),
      dumpName name qualName =
        JValue.obj 2
          [("name", JValue.str name),
           ("qual_name",
            JValue.arr (splitQual qualName).length
              (((splitQual qualName).reverse).map
                (fun c => JValue.str (String.mk c))))]
      ∧ joinColons (splitQual qualName) = qualName
      ∧ ∀ c ∈ splitQual qualName, ¬ [':', ':'] <:+: c := by
  intro name qualName
  obtain ⟨hjoin, hcomps⟩ :=
    splitQualFuel_spec qualName.length qualName (le_refl _)
  refine ⟨?_, hjoin, ?_⟩
  · unfold dumpName
    rw [emitDownLoop_eq_reverse]
  · intro c hc
    exact (findColons_none_iff c).mp (hcomps c hc)

/-- Witness for claim C10 on the concrete qualified name `A::f`: the
component `A` does not contain the separator. -/
theorem dumpName_claimC10_spec_witness :
    ¬ [':', ':'] <:+: ['A'] :=
  (dumpName_claimC10_spec "f" ('A' :: ':' :: ':' :: ['f'])).2.2 ['A'] (by decide)

/-! ## Claim theorems: arity invariant and frame structure -/

/-- Claim C1: for every concrete kind handled by the encoder in the
declaration and statement families, the number of tuple-level fields
written by that kind's visit dispatch (the kind's own emissions plus all
ancestor contributions, recorded by the trace tables, which every
routine emits unconditionally — conditionals in the source only affect
fields inside the declared-size objects, never the number of tuple
components) equals the arity computed by the resolver
(`tupleSizeOfDeclKind` / `tupleSizeOfStmtClass`), which is the size
declared when the tuple is opened in `dumpDecl` / `dumpStmt`. -/
theorem tupleSize_claimC1_arity :
    (∀ k : DeclKind, isConcreteDeclKind k = true →
      (declVisitTrace chainFuel k).length = tupleSizeOfDeclKind k)
    ∧ (∀ s : StmtKind, isConcreteStmtKind s = true →
      (stmtVisitTrace chainFuel s).length = tupleSizeOfStmtKind s) := by
  constructor
  · intro k hk
    cases k <;> revert hk <;> decide
  · intro s hs
    cases s <;> revert hs <;> decide

/-- Witness for claim C1 at the deepest declaration chain
(`CXXRecordDecl`) and a representative statement kind. -/
theorem tupleSize_claimC1_arity_witness :
    (declVisitTrace chainFuel DeclKind.CXXRecordDecl).length =
      tupleSizeOfDeclKind DeclKind.CXXRecordDecl ∧
    (stmtVisitTrace chainFuel StmtKind.CXXStaticCastExpr).length =
      tupleSizeOfStmtKind StmtKind.CXXStaticCastExpr :=
  ⟨tupleSize_claimC1_arity.1 DeclKind.CXXRecordDecl (by decide),
   tupleSize_claimC1_arity.2 StmtKind.CXXStaticCastExpr (by decide)⟩

/-- Claim C8, counterexample.  `dumpType` (and likewise `dumpComment`)
opens its tuple with *no* declared size (`TupleScope Scope(OF);`, source
line 3897), so a type node — here a builtin type — is not wrapped in "one
fixed-size tuple of the declared arity"; indeed the resolver has no
entry for type kinds at all. -/
theorem dumpType_claimC8_counterexample :
    (dumpTypeFrame (some TypeKind.Builtin)).declaredSize = none
    ∧ ∀ n : Nat, (dumpTypeFrame (some TypeKind.Builtin)).declaredSize ≠ some n := by
  exact ⟨rfl, fun n h => by simp [dumpTypeFrame] at h⟩

/-- Claim C8, amended.  For every concrete declaration or statement kind
the encoder opens exactly one tagged variant labeled with the node's
kind name (`getDeclKindName() + "Decl"`, resp. `getStmtClassName()`)
wrapping one tuple whose declared size is the resolver's arity, and the
tuple's components are the ancestors' own emissions in root-to-leaf
order followed by the kind's own fields; for the Type (and Comment)
families the variant wraps a tuple opened without a declared size. -/
theorem dumpFrame_claimC8_structure :
    (∀ k : DeclKind, isConcreteDeclKind k = true →
      dumpDeclFrame k =
        ⟨declKindName k ++ "Decl", some (tupleSizeOfDeclKind k),
         (declChain chainFuel k).flatMap declOwnTrace⟩)
    ∧ (∀ s : StmtKind, isConcreteStmtKind s = true →
      dumpStmtFrame s =
        ⟨stmtKindName s, some (tupleSizeOfStmtKind s),
         (stmtChain chainFuel s).flatMap stmtOwnTrace⟩) := by
  constructor
  · intro k _
    cases k <;> rfl
  · intro s _
    cases s <;> rfl

/-- Witness for amended claim C8 at `NamespaceDecl`: its tuple contents
are the ancestor chain's own emissions, ancestor-first. -/
theorem dumpFrame_claimC8_structure_witness :
    dumpDeclFrame DeclKind.NamespaceDecl =
      ⟨declKindName DeclKind.NamespaceDecl ++ "Decl",
       some (tupleSizeOfDeclKind DeclKind.NamespaceDecl),
       (declChain chainFuel DeclKind.NamespaceDecl).flatMap declOwnTrace⟩ :=
  dumpFrame_claimC8_structure.1 DeclKind.NamespaceDecl (by decide)

/-! ## Claim theorems: sentinels -/

/-- Once a pointer's token has been emitted, any later `writePointer`
call on it — in a state whose table extends the post-call table —
produces the same token string, in both modes. -/
theorem writePointer_stable (wp : Bool) (s1 s2 : PtrState) (p : Ptr)
    (h : (writePointer wp s1 p).2.seen <+: s2.seen) :
    (writePointer wp s2 p).1 = (writePointer wp s1 p).1 := by
  cases wp with
  | true => simp [writePointer]
  | false =>
    have htok := writePointerAnon_token s1 p
    have h2 : lookupIdx s2.seen p = some (writePointerAnon s1 p).1 :=
      lookupIdx_mono (by simpa [writePointer] using h) htok
    simp [writePointer, writePointerAnon, h2]

/-- Claim C4, counterexample.  For the Type family there is no sentinel
node: the constructor builds sentinels only for statements,
declarations and comments (source lines 166-168), and `dumpType`
handles a null type pointer in a dedicated branch that opens the
`NoneType` variant — a tag no genuine type node of the family ever
carries — rather than encoding any node of the family. -/
theorem sentinel_claimC4_counterexample :
    ¬ ∃ t : TypeKind, dumpTypeTag (some t) = dumpTypeTag none := by
  decide

/-- Claim C4, amended.  For the Declaration and Statement families a
null reference is encoded via the singleton sentinel constructed once
(`NullPtrDecl`, `NullPtrStmt`); for the Type family the null pointer is
handled by `dumpType`'s dedicated `NoneType` branch without a sentinel
node (the Comment family's `NullPtrComment` is likewise substituted by
`dumpComment`, but the comment visitor defines no case for
`NoCommentKind`).  In all three encoded families, encoding a null
reference at two different points of the same run — any later state
whose identity table extends the earlier post-encode table — produces
identical encodings (same kind tag, same field values) sharing the same
identity token, because the sentinels carry invalid locations (hence
fixed empty location records) and the token, once assigned, is stable. -/
theorem sentinel_claimC4_stability :
    ∀ (wp : Bool) (addr : Ptr) (st1 st2 : ExporterState),
      ((encodeNullDecl wp addr st1).2.ptrs.seen <+: st2.ptrs.seen →
        (encodeNullDecl wp addr st2).1 = (encodeNullDecl wp addr st1).1)
      ∧ ((encodeNullStmt wp addr st1).2.ptrs.seen <+: st2.ptrs.seen →
        (encodeNullStmt wp addr st2).1 = (encodeNullStmt wp addr st1).1)
      ∧ ((encodeNullType wp st1).2.ptrs.seen <+: st2.ptrs.seen →
        (encodeNullType wp st2).1 = (encodeNullType wp st1).1) := by
  intro wp addr st1 st2
  have hr : ∀ s : LocState, (dumpSourceRange s none none).1 =
      JValue.tup (some 2) [JValue.obj 0 [], JValue.obj 0 []] := fun _ => rfl
  refine ⟨fun h => ?_, fun h => ?_, fun h => ?_⟩
  · have hs := writePointer_stable wp st1.ptrs st2.ptrs addr h
    simp only [encodeNullDecl, hs, hr]
  · have hs := writePointer_stable wp st1.ptrs st2.ptrs addr h
    simp only [encodeNullStmt, hs, hr]
  · have hs := writePointer_stable wp st1.ptrs st2.ptrs nullAddr h
    simp only [encodeNullType, hs, hr]

/-- Witness for amended claim C4: encoding the null declaration twice in
a row from a fresh state yields the same value both times. -/
theorem sentinel_claimC4_stability_witness :
    (encodeNullDecl false 5 (encodeNullDecl false 5 ⟨⟨[]⟩, initLocState⟩).2).1 =
      (encodeNullDecl false 5 ⟨⟨[]⟩, initLocState⟩).1 :=
  (sentinel_claimC4_stability false 5 ⟨⟨[]⟩, initLocState⟩
      (encodeNullDecl false 5 ⟨⟨[]⟩, initLocState⟩).2).1 (by decide)

/-! ## Claim theorems: traversal filter -/

/-- Claim C9: the file-membership filter is consulted only when a
`DeclContext` lists its direct members, and only when a deduplication
service is configured (conjunct one: with no service every member is
retained).  A rejected member is simply omitted: the emitted array's
declared length equals the number of retained members (conjunct two),
and a declaration is retained iff it is a member that the filter
accepts whenever the service is configured (conjunct three).  The
filter is never consulted for the node itself (a node reached by
`dumpDecl` is always encoded, conjunct four) nor for by-reference
records (`dumpDeclRef` and the `DeclRefExpr` path are filter-
independent, conjuncts five and six); omission never fails the run —
every function here is total. -/
theorem visitDeclContext_claimC9_filter :
    (∀ (filt : String → Bool) (ds : List DeclM),
      declContextKeep false filt ds = ds)
    ∧ (∀ (dedup : Bool) (filt : String → Bool) (ds : List DeclM),
        visitDeclContextArrayLen dedup filt ds =
          ds.countP (fun d => !dedup || filt d.file))
    ∧ (∀ (dedup : Bool) (filt : String → Bool) (ds : List DeclM) (d : DeclM),
        d ∈ declContextKeep dedup filt ds ↔
          d ∈ ds ∧ (dedup = true → filt d.file = true))
    ∧ (∀ (fuel : Nat) (dedup : Bool) (filt : String → Bool) (inL : Bool)
        (d : DeclM),
        (encNode (fuel + 1) dedup filt inL (.d d)).head? =
          some (d.ptr, Occ.byValue inL))
    ∧ (∀ (fuel : Nat) (dedup : Bool) (f1 f2 : String → Bool) (b : Bool)
        (p target : Ptr),
        encNode fuel dedup f1 b (.s (.declRefExpr p target)) =
          encNode fuel dedup f2 b (.s (.declRefExpr p target)))
    ∧ (∀ target : Ptr, dumpDeclRefEvents target = [(target, Occ.byRef)]) := by
  refine ⟨?_, ?_, ?_, ?_, ?_, fun _ => rfl⟩
  · intro filt ds
    simp [declContextKeep]
  · intro dedup filt ds
    simp [visitDeclContextArrayLen, declContextKeep,
      List.countP_eq_length_filter]
  · intro dedup filt ds d
    cases dedup <;> simp [declContextKeep, List.mem_filter]
  · intro fuel dedup filt inL d
    cases d <;> rfl
  · intro fuel dedup f1 f2 b p target
    cases fuel <;> rfl

/-- Witness for claim C9: with the service configured and a filter
accepting only `a.c`, the declaration from `a.c` is retained. -/
theorem visitDeclContext_claimC9_filter_witness :
    DeclM.var 1 "a.c" ∈ declContextKeep true (fun f => f == "a.c")
        [DeclM.var 1 "a.c", DeclM.var 2 "b.c"] :=
  (visitDeclContext_claimC9_filter.2.2.1 true (fun f => f == "a.c")
      [DeclM.var 1 "a.c", DeclM.var 2 "b.c"] (DeclM.var 1 "a.c")).mpr
    ⟨List.mem_cons_self _ _, fun _ => by decide⟩

/-! ## Claim theorems: by-value exclusivity -/

theorem countP_flatMap {α β : Type} (pred : β → Bool) (f : α → List β) :
    ∀ ds : List α,
      ((ds.flatMap f).countP pred) =
        (ds.map (fun d => (f d).countP pred)).sum := by
  intro ds
  induction ds with
  | nil => simp
  | cons d ds ih => simp [ih, List.countP_append]

/-- With no deduplication service, the traversal's by-value occurrence
count of any pointer equals its multiplicity among the declaration
nodes of the tree (both truncated at the same fuel). -/
theorem encNode_count_eq (filt : String → Bool) (q : Ptr) :
    ∀ (fuel : Nat) (b : Bool) (n : NodeM),
      countByValue q (encNode fuel false filt b n) =
        (declPtrsN fuel n).countP (fun x => x == q) := by
  intro fuel
  induction fuel with
  | zero => intro b n; rfl
  | succ fuel ih =>
    intro b n
    match n with
    | .d (.var p f) =>
      simp [encNode, declPtrsN, countByValue, List.countP_cons, Occ.isByValue]
    | .d (.record p f members) =>
      have hk : declContextKeep false filt members = members := by
        simp [declContextKeep]
      have hfun : (fun m => (encNode fuel false filt true (.d m)).countP
            (fun e => e.1 == q && e.2.isByValue))
          = (fun m => (declPtrsN fuel (.d m)).countP (fun x => x == q)) :=
        funext fun m => ih true (.d m)
      simp only [encNode, declPtrsN, hk, countByValue, List.countP_cons,
        countP_flatMap, hfun]
      simp [Occ.isByValue]
    | .d (.func p f params body) =>
      have hfun : (fun m => (encNode fuel false filt false (.d m)).countP
            (fun e => e.1 == q && e.2.isByValue))
          = (fun m => (declPtrsN fuel (.d m)).countP (fun x => x == q)) :=
        funext fun m => ih false (.d m)
      cases body with
      | none =>
        simp only [encNode, declPtrsN, countByValue, List.countP_cons,
          List.countP_append, countP_flatMap, hfun]
        simp [Occ.isByValue]
      | some s =>
        have hb : (encNode fuel false filt false (.s s)).countP
              (fun e => e.1 == q && e.2.isByValue)
            = (declPtrsN fuel (.s s)).countP (fun x => x == q) :=
          ih false (.s s)
        simp only [encNode, declPtrsN, countByValue, List.countP_cons,
          List.countP_append, countP_flatMap, hfun, hb]
        simp [Occ.isByValue]
    | .s (.declStmt p ds) =>
      have hfun : (fun m => (encNode fuel false filt false (.d m)).countP
            (fun e => e.1 == q && e.2.isByValue))
          = (fun m => (declPtrsN fuel (.d m)).countP (fun x => x == q)) :=
        funext fun m => ih false (.d m)
      simp only [encNode, declPtrsN, countByValue, List.countP_cons,
        countP_flatMap, hfun]
      simp [Occ.isByValue]
    | .s (.declRefExpr p target) =>
      simp [encNode, declPtrsN, countByValue, List.countP_cons, Occ.isByValue]
    | .s (.compound p ss) =>
      have hfun : (fun t => (encNode fuel false filt false (.s t)).countP
            (fun e => e.1 == q && e.2.isByValue))
          = (fun t => (declPtrsN fuel (.s t)).countP (fun x => x == q)) :=
        funext fun t => ih false (.s t)
      simp only [encNode, declPtrsN, countByValue, List.countP_cons,
        countP_flatMap, hfun]
      simp [Occ.isByValue]

/-- Claim C5, counterexample.  A function with a local variable declared
in a declaration statement: `VisitFunctionDecl` deliberately does not
call `VisitDeclContext` (source line 1387), and `VisitDeclStmt` dumps
the local by value (source lines 2492-2498).  The local (pointer 3)
therefore appears by value in *zero* `DeclContext` listings, yet has one
full by-value encoding in the output that is not a by-reference
record — contradicting "every declaration appears by value in exactly
one scope's listing; every other occurrence is a by-reference record". -/
theorem traversal_claimC5_counterexample :
    (encNode 5 false (fun _ => true) true
        (.d (.func 1 "a.c" [] (some (.declStmt 10 [.var 3 "a.c"]))))).countP
        (fun e => e.1 == 3 && (e.2 == Occ.byValue true)) = 0
    ∧ countByValue 3 (encNode 5 false (fun _ => true) true
        (.d (.func 1 "a.c" [] (some (.declStmt 10 [.var 3 "a.c"]))))) = 1
    ∧ (encNode 5 false (fun _ => true) true
        (.d (.func 1 "a.c" [] (some (.declStmt 10 [.var 3 "a.c"]))))).countP
        (fun e => e.1 == 3 && (e.2 == Occ.byRef)) = 0 := by
  decide

/-- Claim C5, amended.  In a run with no deduplication service, every
declaration node of the input appears by value exactly once in the whole
output — in its `DeclContext`'s listing when its context is listed, and
otherwise at its declaring site (declaration statement or parameter
list) — provided declaration identities are distinct (conjunct two);
by-value counts agree with node multiplicity in general (conjunct one).
All occurrences of the same declaration, by value or by reference,
carry the same identity token, since the traversal requests one token
per occurrence in emission order and equal pointers receive equal
tokens (conjunct three). -/
theorem traversal_claimC5_byValue :
    (∀ (filt : String → Bool) (q : Ptr) (fuel : Nat) (b : Bool) (n : NodeM),
      countByValue q (encNode fuel false filt b n) =
        (declPtrsN fuel n).countP (fun x => x == q))
    ∧ (∀ (filt : String → Bool) (q : Ptr) (fuel : Nat) (b : Bool) (n : NodeM),
        (declPtrsN fuel n).Nodup → q ∈ declPtrsN fuel n →
        countByValue q (encNode fuel false filt b n) = 1)
    ∧ (∀ (filt : String → Bool) (fuel : Nat) (b : Bool) (n : NodeM)
        (i j : Nat),
        i < (encNode fuel false filt b n).length →
        j < (encNode fuel false filt b n).length →
        ((runTokens ((encNode fuel false filt b n).map Prod.fst)).getD i 0 =
            (runTokens ((encNode fuel false filt b n).map Prod.fst)).getD j 0 ↔
          ((encNode fuel false filt b n).map Prod.fst).getD i 0 =
            ((encNode fuel false filt b n).map Prod.fst).getD j 0)) := by
  refine ⟨fun filt q => encNode_count_eq filt q, ?_, ?_⟩
  · intro filt q fuel b n hnd hq
    rw [encNode_count_eq filt q fuel b n]
    exact List.count_eq_one_of_mem hnd hq
  · intro filt fuel b n i j hi hj
    exact runTokens_getD_iff _ i j (by simpa using hi) (by simpa using hj)

/-- Witness for amended claim C5: in a record listing a single variable,
the variable's pointer has exactly one by-value occurrence. -/
theorem traversal_claimC5_byValue_witness :
    countByValue 2 (encNode 3 false (fun _ => true) true
        (.d (.record 1 "a.c" [.var 2 "a.c"]))) = 1 :=
  traversal_claimC5_byValue.2.1 (fun _ => true) 2 3 true
    (.d (.record 1 "a.c" [.var 2 "a.c"])) (by decide) (by decide)

end ASTExporter
